import Mathlib

/-!
Verification of the pharmaAI pharmacogenomics core (`src/pharma_ml`).

The Python sources are shallowly embedded: strings are `String` / `List Char`,
pandas cells that may be NA are `Option String`, Python floats appearing in the
risk tables are exact decimals and are embedded as `ℚ` (every constant in the
sources is a short decimal, and all arithmetic on them in the claims under
study is order comparison and +, *, so the rational embedding is exact),
fallible code returns `Except`.  Character-level Python semantics
(`str.strip`, `str.split`, `int(...)`) are modelled for ASCII input, which is
the alphabet of every table key and every genotype string the pipeline
produces.
-/

/-! ## Python string primitives -/

/-- The whitespace characters `str.strip()` removes (ASCII range). -/
def pyIsSpace (c : Char) : Bool :=
  c = ' ' || c = '\t' || c = '\n' || c = '\x0d' || c = '\x0b' || c = '\x0c'

/-- `s.strip()` on a list of characters: drop whitespace from both ends. -/
def pyStrip (l : List Char) : List Char :=
  (l.dropWhile pyIsSpace).rdropWhile pyIsSpace

/-- `s.strip()` on a `String`. -/
def pyStripS (s : String) : String :=
  String.mk (pyStrip s.toList)

/-- `text.split(sep)` for a single-character separator, Python semantics:
`"".split(c) = [""]`, separators at the ends produce empty parts. -/
def splitOnChar (sep : Char) : List Char → List (List Char)
  | [] => [[]]
  | c :: cs =>
    if c = sep then [] :: splitOnChar sep cs
    else
      match splitOnChar sep cs with
      | [] => [[c]]
      | h :: t => (c :: h) :: t

/-- Digit-run validity after the first digit of a Python integer literal:
single underscores are allowed between digits only. -/
def digitsTail : List Char → Bool
  | [] => true
  | '_' :: c :: r => c.isDigit && digitsTail (c :: r)
  | c :: r => c.isDigit && digitsTail r

/-- A nonempty digit run (with optional internal underscores) starting with a
digit. -/
def digitsOk : List Char → Bool
  | [] => false
  | c :: r => c.isDigit && digitsTail r

/-- Value of an underscore-free ASCII digit run. -/
def digitsVal (l : List Char) : Nat :=
  l.foldl (fun acc c => 10 * acc + (c.toNat - 48)) 0

/-- Python `int(p)` on an already-stripped token: optional sign, then digits
with optional single underscores between them; anything else raises
`ValueError`, modelled as `none`.  (ASCII digits; the callers below only ever
compare the result with `0`.) -/
def pyParseInt (l : List Char) : Option Int :=
  match l with
  | '+' :: r => if digitsOk r then some ((digitsVal (r.filter (· ≠ '_')) : Nat) : Int) else none
  | '-' :: r => if digitsOk r then some (-((digitsVal (r.filter (· ≠ '_')) : Nat) : Int)) else none
  | r => if digitsOk r then some ((digitsVal (r.filter (· ≠ '_')) : Nat) : Int) else none

/-! ## Genotype normalization

`phenotype_calculator.normalize_genotype` (lines 53-83) and
`diplotype_calculator._normalize_genotype` (lines 43-69) share, token for
token, everything after their initial treatment of the whole input string:
the empty / `"./."` early return, separator detection, the two-part check,
the per-part allele loop and the final sort-and-join.  `normalizeFrom` is that
shared tail; the two functions differ only in whether the input was first
passed through `str.strip()`. -/

/-- The body of the per-part loop of both normalizers: strip the part, map
missing/`.`/unparsable/non-positive to `0`, any positive integer to `1`. -/
def alleleTok (p : List Char) : Nat :=
  let q := pyStrip p
  if q = [] ∨ q = ['.'] then 0
  else
    match pyParseInt q with
    | none => 0
    | some v => if v ≤ 0 then 0 else 1

/-- `"x/y"` from the two sorted alleles (each `0` or `1`). -/
def mkGt (x y : Nat) : String :=
  String.mk [Char.ofNat (48 + x), '/', Char.ofNat (48 + y)]

/-- Separator detection: `"/" if "/" in text else "|" if "|" in text else None`. -/
def sepOf (text : List Char) : Option Char :=
  if '/' ∈ text then some '/' else if '|' ∈ text then some '|' else none

/-- Everything both normalizers do after deciding what string to operate on. -/
def normalizeFrom (text : List Char) : String :=
  if text = [] ∨ text = ['.', '/', '.'] then "0/0"
  else
    match sepOf text with
    | none => "0/0"
    | some sep =>
      match splitOnChar sep text with
      | [p₁, p₂] =>
        let a := alleleTok p₁
        let b := alleleTok p₂
        mkGt (min a b) (max a b)
      | _ => "0/0"

/-- `phenotype_calculator.normalize_genotype` on a string input (the
`None`/`NaN` branch of the Python source cannot fire for a `str`): strip the
whole input first, then normalize. -/
def normalize_genotype (g : String) : String :=
  normalizeFrom (pyStrip g.toList)

/-- `diplotype_calculator._normalize_genotype`: same algorithm but the input
string is used raw (only the individual parts are stripped). -/
def normalizeGenotypeDC (g : String) : String :=
  normalizeFrom g.toList

example : normalize_genotype "0/1" = "0/1" := by decide
example : normalize_genotype "1|0" = "0/1" := by decide
example : normalize_genotype "./." = "0/0" := by decide
example : normalize_genotype "" = "0/0" := by decide
example : normalize_genotype " 2 / 0 " = "0/1" := by decide
example : normalize_genotype "0/1/2" = "0/0" := by decide
example : normalize_genotype "abc" = "0/0" := by decide
example : normalize_genotype "-1/1" = "0/1" := by decide
example : normalizeGenotypeDC " 1/1 " = "1/1" := by decide

/-! ## Variant rows and reference tables -/

/-- One row of the gene-grouped variant table.  A pandas cell that may be NA
is an `Option`; `none` is NA. -/
structure VRow where
  gene : Option String
  chrom : Option String
  position : Option Int
  rsid : Option String
  genotype : Option String
  star : Option String
deriving DecidableEq, Repr

/-- The variant table: its column names plus its rows. -/
structure PharmaTable where
  columns : List String
  rows : List VRow
deriving Repr

/-- `phenotype_calculator.PGX_GENES`.  The Python object is a `frozenset`,
iterated in an unspecified order; the per-gene writes of `compute_diplotype`
touch disjoint row sets, so the table result is independent of the order and
a fixed listing is faithful. -/
def PGX_GENES : List String :=
  ["CYP2D6", "CYP2C19", "CYP2C9", "SLCO1B1", "TPMT", "DPYD"]

/-- `phenotype_calculator.STAR_DEFINITIONS` (lines 13-50). -/
def STAR_DEFINITIONS : List (String × List (String × String)) :=
  [ ("CYP2C19", [("rs4244285", "*2"), ("rs4986893", "*3"), ("rs12248560", "*17")]),
    ("CYP2C9",  [("rs1799853", "*2"), ("rs1057910", "*3"), ("rs28371686", "*5"),
                 ("rs9332131", "*6"), ("rs7900194", "*8"), ("rs28371685", "*11")]),
    ("TPMT",    [("rs1142345", "*3C"), ("rs1800460", "*3B"), ("rs1800462", "*2")]),
    ("DPYD",    [("rs3918290", "*2A"), ("rs55886062", "*13"), ("rs75017182", "*HapB3"),
                 ("rs56038477", "*HapB3"), ("rs67376798", "*c2846AT")]),
    ("SLCO1B1", [("rs4149056", "*5"), ("rs2306283", "*1B")]),
    ("CYP2D6",  [("rs3892097", "*4"), ("rs1065852", "*10"), ("rs35742686", "*3"),
                 ("rs5030655", "*6"), ("rs28371725", "*41")]) ]

/-- `STAR_DEFINITIONS.get(gene, {})`. -/
def starMapOf (gene : String) : List (String × String) :=
  (STAR_DEFINITIONS.lookup gene).getD []

/-- `normalize_genotype(row.get("Genotype"))`: `None`/NA normalizes to
`"0/0"` (phenotype_calculator lines 54-55). -/
def normalizeGenotypeOpt : Option String → String
  | none => "0/0"
  | some s => normalize_genotype s

/-- `str(row.get("RSID", ""))` where the cell may be NA: `str(nan)` is the
string `"nan"`, which the callers only ever compare against rsids, so any
non-rsid stand-in is faithful. -/
def rsidStr (r : VRow) : String :=
  match r.rsid with
  | some s => s
  | none => "nan"

/-! ## `phenotype_calculator.compute_diplotype` (lines 100-213) -/

/-- The star-resolution part of the loop body (lines 132-151): skip reference
rows, prefer a non-empty, non-`"."` `STAR` annotation when the table has a
`STAR` column, otherwise look the rsid up in the gene's star table; rows with
no resolvable star are skipped.  Returns the row's `(star, normalized
genotype)` contribution, or `none` when the row is skipped. -/
def resolveRow (hasStarCol : Bool) (starMap : List (String × String)) (r : VRow) :
    Option (String × String) :=
  let gt := normalizeGenotypeOpt r.genotype
  if gt = "0/0" then none
  else
    let starAnn : Option String :=
      if hasStarCol then
        match r.star with
        | some sv => if pyStripS sv = "" ∨ pyStripS sv = "." then none else some (pyStripS sv)
        | none => none
      else none
    match starAnn with
    | some st => some (st, gt)
    | none =>
      match r.rsid with
      | none => none
      | some rsid =>
        match starMap.lookup rsid with
        | none => none
        | some st => some (st, gt)

/-- `seen_stars` update (lines 160-163): a Python dict keeps insertion order;
a `"1/1"` value is never downgraded, otherwise the value is overwritten in
place, and an unseen star is appended. -/
def seenInsert (seen : List (String × String)) (star gt : String) :
    List (String × String) :=
  match seen.lookup star with
  | some prev =>
    if prev = "1/1" then seen
    else seen.map fun p => if p.1 = star then (star, gt) else p
  | none => seen ++ [(star, gt)]

/-- The loop state of `compute_diplotype`'s row scan: the `seen_stars` dict
plus the two DPYD HapB3 booleans. -/
structure GeneScan where
  seen : List (String × String)
  causal : Bool
  proxyOnly : Bool
deriving Repr

/-- One iteration of the row loop of `compute_diplotype` (lines 132-163). -/
def scanStep (hasStarCol : Bool) (starMap : List (String × String)) (gene : String)
    (st : GeneScan) (r : VRow) : GeneScan :=
  match resolveRow hasStarCol starMap r with
  | none => st
  | some (star, gt) =>
    let st :=
      if gene = "DPYD" ∧ star = "*HapB3" then
        if rsidStr r = "rs75017182" then { st with causal := true }
        else if rsidStr r = "rs56038477" then { st with proxyOnly := true }
        else st
      else st
    { st with seen := seenInsert st.seen star gt }

/-- The row loop of `compute_diplotype` (lines 132-163) over one gene's rows. -/
def scanGeneRows (hasStarCol : Bool) (starMap : List (String × String))
    (gene : String) (rows : List VRow) : GeneScan :=
  rows.foldl (scanStep hasStarCol starMap gene) ⟨[], false, false⟩

/-- `hom_stars` (line 167): the seen stars recorded homozygous, in dict
insertion order, `*1` excluded. -/
def homStarsOf (seen : List (String × String)) : List String :=
  (seen.filter fun p => p.2 = "1/1" ∧ p.1 ≠ "*1").map Prod.fst

/-- `het_stars` (line 168): the seen stars recorded heterozygous, in dict
insertion order, `*1` excluded. -/
def hetStarsOf (seen : List (String × String)) : List String :=
  (seen.filter fun p => p.2 = "0/1" ∧ p.1 ≠ "*1").map Prod.fst

/-- The resolution precedence of lines 170-183: `(allele1, allele2,
unphased)`.  A homozygous star (the first of `hom_stars`) pairs with itself;
otherwise one het star pairs with `*1`, and two or more het stars pair with
each other and set the unphased flag. -/
def resolveAlleles (homStars hetStars : List String) : String × String × Bool :=
  match homStars with
  | top :: _ => (top, top, false)
  | [] =>
    match hetStars with
    | [] => ("*1", "*1", false)
    | [h] => ("*1", h, false)
    | h₁ :: h₂ :: _ => (h₁, h₂, true)

/-- Remove every element equal to any member of `bad`, then append `x`
(lines 191-192 and 196-197). -/
def collapseTo (l : List String) (bad : List String) (x : String) : List String :=
  (l.filter fun s => ¬ s ∈ bad) ++ [x]

/-- The per-gene body of `compute_diplotype` (lines 122-211): returns the
`Diplotype` string and the optional `Diplotype_Note` for one gene's rows. -/
def computeGeneDiplotype (hasStarCol : Bool) (starMap : List (String × String))
    (gene : String) (rows : List VRow) : String × Option String :=
  let st := scanGeneRows hasStarCol starMap gene rows
  -- lines 167-168
  let homStars := homStarsOf st.seen
  let hetStars := hetStarsOf st.seen
  -- lines 170-183
  let resolved := resolveAlleles homStars hetStars
  let allele1 := resolved.1
  let allele2 := resolved.2.1
  let unphased := resolved.2.2
  -- lines 185-197: `mutated_stars` is rebuilt from the seen stars and then
  -- rewritten by the DPYD and SLCO1B1 collapse rules, but nothing below ever
  -- reads it again - the diplotype was already fixed above.
  let mutatedStars := st.seen.map Prod.fst
  let mutatedStars :=
    if gene = "DPYD" ∧ st.causal ∧ st.proxyOnly then
      if 1 < mutatedStars.count "*HapB3" then collapseTo mutatedStars ["*HapB3"] "*HapB3"
      else mutatedStars
    else mutatedStars
  let _mutatedStars :=
    if gene = "SLCO1B1" ∧ "*5" ∈ mutatedStars ∧ "*1B" ∈ mutatedStars then
      collapseTo mutatedStars ["*5", "*1B"] "*15"
    else mutatedStars
  -- lines 201-211
  let diplotype := allele1 ++ "/" ++ allele2
  let noteParts : List String :=
    (if unphased then ["Unphased: trans assumed"] else []) ++
    (if gene = "DPYD" ∧ st.proxyOnly ∧ ¬ st.causal then
      ["HapB3 called from proxy tag rs56038477 only"] else []) ++
    (if gene = "SLCO1B1" ∧ "*15".toList <:+: diplotype.toList then
      ["Unphased: *15 (cis) assumed from rs4149056 + rs2306283 co-occurrence"] else [])
  (diplotype, if noteParts = [] then none else some (String.intercalate "; " noteParts))

/-- The required-column names, already sorted as `sorted(missing)` sorts
them. -/
def requiredColsSorted : List String :=
  ["Chrom", "Gene", "Genotype", "Position", "RSID"]

/-- `phenotype_calculator.compute_diplotype`: the missing-column check
(lines 101-105), then one diplotype per pharmacogene.  The result keeps each
input row together with its `Diplotype` and `Diplotype_Note` cells (both NA
for rows of genes outside `PGX_GENES`). -/
def compute_diplotype (t : PharmaTable) :
    Except String (List (VRow × Option String × Option String)) :=
  let missing := requiredColsSorted.filter fun c => ¬ c ∈ t.columns
  if missing.isEmpty = false then
    .error ("Input DataFrame is missing required columns: " ++ String.intercalate ", " missing)
  else
    let hasStarCol := "STAR" ∈ t.columns
    .ok (t.rows.map fun r =>
      match r.gene with
      | some g =>
        if g ∈ PGX_GENES then
          let d := computeGeneDiplotype hasStarCol (starMapOf g) g
            (t.rows.filter fun r' => r'.gene = some g)
          (r, some d.1, d.2)
        else (r, none, none)
      | none => (r, none, none))

/-! ## `diplotype_calculator._compute_gene_diplotype` (lines 72-110) -/

/-- `diplotype_calculator.STAR_DEFINITIONS` (lines 13-40): a smaller table
than the one in phenotype_calculator. -/
def STAR_DEFINITIONS_DC : List (String × List (String × String)) :=
  [ ("CYP2C19", [("rs4244285", "*2"), ("rs4986893", "*3"), ("rs12248560", "*17")]),
    ("CYP2C9",  [("rs1799853", "*2"), ("rs1057910", "*3")]),
    ("TPMT",    [("rs1142345", "*3C"), ("rs1800460", "*3B"), ("rs1800462", "*2")]),
    ("DPYD",    [("rs3918290", "*2A"), ("rs67376798", "*13"), ("rs55886062", "*HapB3")]),
    ("SLCO1B1", [("rs4149056", "*5")]),
    ("CYP2D6",  [("rs3892097", "*4"), ("rs1065852", "*10")]) ]

/-- The loop state of `_compute_gene_diplotype`: the current homozygous call
(if any) in `allele1`/`allele2` and the list of heterozygous stars. -/
structure DCScan where
  allele1 : String
  allele2 : String
  mutatedStars : List String
deriving Repr

/-- One iteration of the row loop of `_compute_gene_diplotype` (lines
81-101): a homozygous star overwrites `allele1`/`allele2`, a heterozygous
star is appended to `mutated_stars`. -/
def dcStep (starMap : List (String × String)) (st : DCScan) (r : VRow) : DCScan :=
  match r.rsid, r.genotype with
  | some rsid, some genotype =>
    match starMap.lookup rsid with
    | none => st
    | some star =>
      let gtNorm := normalizeGenotypeDC genotype
      if gtNorm = "0/0" then st
      else if gtNorm = "1/1" then { st with allele1 := star, allele2 := star }
      else if gtNorm = "0/1" then { st with mutatedStars := st.mutatedStars ++ [star] }
      else st
  | _, _ => st

/-- `diplotype_calculator._compute_gene_diplotype`: each homozygous star
overwrites `allele1`/`allele2` (so the last one encountered wins), each
heterozygous star is appended to `mutated_stars`; the heterozygous fallback
applies only when no homozygous star was seen. -/
def computeGeneDiplotypeDC (starMap : List (String × String)) (rows : List VRow) :
    String :=
  if starMap.isEmpty ∨ rows.isEmpty then "*1/*1"
  else
    let st := rows.foldl (dcStep starMap) ⟨"*1", "*1", []⟩
    if st.allele1 = "*1" ∧ st.allele2 = "*1" then
      match st.mutatedStars with
      | [] => "*1/*1"
      | [m] => "*1/" ++ m
      | m₁ :: m₂ :: _ => m₁ ++ "/" ++ m₂
    else st.allele1 ++ "/" ++ st.allele2

/-! ## `detected_variants.py` -/

/-- `str(cell)` for a possibly-NA cell: `str(nan)` is `"nan"`; the callers
only compare the result against rsid/gene keys, none of which is `"nan"`. -/
def pyStr : Option String → String
  | some s => s
  | none => "nan"

/-- `detected_variants.STAR_DEFINITIONS` (lines 9-36): token for token the
same table as `diplotype_calculator.STAR_DEFINITIONS`. -/
def STAR_DEFINITIONS_DV : List (String × List (String × String)) :=
  STAR_DEFINITIONS_DC

/-- `detected_variants.ALLELE_FUNCTION_MAP` (lines 39-76). -/
def ALLELE_FUNCTION_MAP : List (String × List (String × String)) :=
  [ ("CYP2C19", [("*1", "normal"), ("*2", "no function"), ("*3", "no function"),
                 ("*17", "increased")]),
    ("CYP2C9",  [("*1", "normal"), ("*2", "decreased"), ("*3", "decreased")]),
    ("TPMT",    [("*1", "normal"), ("*2", "no function"), ("*3A", "no function"),
                 ("*3B", "no function"), ("*3C", "no function")]),
    ("DPYD",    [("*1", "normal"), ("*2A", "no function"), ("*13", "no function"),
                 ("*HapB3", "decreased")]),
    ("SLCO1B1", [("*1", "normal"), ("*5", "decreased")]),
    ("CYP2D6",  [("*1", "normal"), ("*2", "normal"), ("*4", "no function"),
                 ("*5", "no function"), ("*10", "decreased"), ("*17", "decreased")]) ]

/-- `detected_variants.get_star_allele` (lines 79-87): an empty or NA rsid
resolves to nothing, otherwise the gene's table is consulted. -/
def get_star_allele (gene : Option String) (rsid : Option String) : Option String :=
  let geneKey := pyStripS (pyStr gene)
  match rsid with
  | none => none
  | some rs =>
    if rs = "" then none
    else
      match STAR_DEFINITIONS_DV.lookup geneKey with
      | none => none
      | some geneMap => geneMap.lookup (pyStripS rs)

/-- `detected_variants.get_allele_function` (lines 90-97): defaults to
`"unknown"` for a missing star or an uncovered gene/star. -/
def get_allele_function (gene : Option String) (star : Option String) : String :=
  match star with
  | none => "unknown"
  | some st =>
    if st = "" then "unknown"
    else
      match ALLELE_FUNCTION_MAP.lookup (pyStripS (pyStr gene)) with
      | none => "unknown"
      | some funcMap => (funcMap.lookup st).getD "unknown"

/-- One emitted detected-variant record (lines 135-145). -/
structure DetectedVariant where
  gene : String
  rsid : String
  chrom : String
  position : Int
  genotype : String
  star_allele : String
  allele_function : String
deriving DecidableEq, Repr

/-- The required columns of `generate_detected_variants`, sorted as
`sorted(missing)` sorts them. -/
def requiredColsDV : List String :=
  ["Chrom", "Diplotype", "Gene", "Genotype", "Phenotype", "Position", "RSID"]

/-- `detected_variants.generate_detected_variants` (lines 100-147).  The row
filter compares the raw `Genotype` cell with the literal string `"0/0"` (line
116); the genotype is never normalized here.  `int(position)` on an NA cell
would raise in Python; no claim touches that branch and it is modelled as 0. -/
def generate_detected_variants (t : PharmaTable) :
    Except String (List DetectedVariant) :=
  let missing := requiredColsDV.filter fun c => ¬ c ∈ t.columns
  if missing.isEmpty = false then
    .error ("Input DataFrame is missing required columns: " ++ String.intercalate ", " missing)
  else
    .ok (t.rows.filterMap fun r =>
      if r.genotype = some "0/0" then none
      else
        match r.rsid with
        | none => none
        | some _ =>
          let starAnn : Option String :=
            if "STAR" ∈ t.columns then
              match r.star with
              | some sv => if sv = "" ∨ sv = "." then none else some sv
              | none => none
            else none
          let star : Option String :=
            match starAnn with
            | some st => some st
            | none => get_star_allele r.gene r.rsid
          match star with
          | none => none
          | some st =>
            some { gene := pyStr r.gene, rsid := pyStr r.rsid, chrom := pyStr r.chrom,
                   position := r.position.getD 0, genotype := pyStr r.genotype,
                   star_allele := st, allele_function := get_allele_function r.gene (some st) })

example :
    generate_detected_variants
      ⟨["Gene", "Chrom", "Position", "RSID", "Genotype", "Diplotype", "Phenotype"],
       [⟨some "CYP2C19", some "chr10", some 94781859, some "rs4244285", some "0|0", none⟩]⟩ =
    .ok [{ gene := "CYP2C19", rsid := "rs4244285", chrom := "chr10", position := 94781859,
           genotype := "0|0", star_allele := "*2", allele_function := "no function" }] := by
  rfl

example :
    compute_diplotype
      ⟨["Gene", "Chrom", "Position", "RSID", "Genotype"],
       [⟨some "SLCO1B1", some "chr12", some 21178630, some "rs4149056", some "0/1", none⟩,
        ⟨some "SLCO1B1", some "chr12", some 21176804, some "rs2306283", some "0/1", none⟩]⟩ =
    .ok [(⟨some "SLCO1B1", some "chr12", some 21178630, some "rs4149056", some "0/1", none⟩,
          some "*5/*1B", some "Unphased: trans assumed"),
         (⟨some "SLCO1B1", some "chr12", some 21176804, some "rs2306283", some "0/1", none⟩,
          some "*5/*1B", some "Unphased: trans assumed")] := by
  rfl

example :
    computeGeneDiplotypeDC ((STAR_DEFINITIONS_DC.lookup "CYP2C19").getD [])
      [⟨some "CYP2C19", some "chr10", some 94781859, some "rs4244285", some "1/1", none⟩,
       ⟨some "CYP2C19", some "chr10", some 94780653, some "rs4986893", some "1/1", none⟩] =
    "*3/*3" := by
  rfl

/-! ## `risk_scoring.py` -/

/-- ASCII `str.lower()`. -/
def pyLower (s : String) : String :=
  String.mk (s.toList.map fun c => if 'A' ≤ c ∧ c ≤ 'Z' then Char.ofNat (c.toNat + 32) else c)

/-- ASCII `str.upper()`. -/
def pyUpper (s : String) : String :=
  String.mk (s.toList.map fun c => if 'a' ≤ c ∧ c ≤ 'z' then Char.ofNat (c.toNat - 32) else c)

/-- `_SEVERITY_WEIGHT` (lines 40-49) without its `None` key; the `None`
fallback 0.40 is applied at the call site. -/
def SEVERITY_WEIGHT : List (String × ℚ) :=
  [("critical", 1), ("high", 8/10), ("moderate", 6/10), ("low", 3/10),
   ("minimal", 1/10), ("none", 0), ("unknown", 4/10)]

/-- `_EVIDENCE_CONFIDENCE` (lines 53-60) without its `None` key (fallback
0.60 applied at the call site). -/
def EVIDENCE_CONFIDENCE : List (String × ℚ) :=
  [("A", 95/100), ("B", 75/100), ("C", 55/100), ("N/A", 6/10), ("unknown", 6/10)]

/-- `_PHENOTYPE_FACTOR` (lines 67-74). -/
def PHENOTYPE_FACTOR : List (String × ℚ) :=
  [("PM", 1), ("UM", 1), ("IM", 7/10), ("RM", 7/10), ("NM", 3/10), ("Unknown", 1/2)]

/-- `_PENALTY_MAP` (lines 79-86). -/
def PENALTY_MAP : List (String × ℚ) :=
  [("missing_cnv", 2/10), ("unknown_star", 25/100), ("no_phase", 15/100),
   ("compound_uncertain", 15/100), ("HapB3_proxy_only", 1/10), ("pipeline_error", 9/10)]

/-- `risk_scoring._score_to_category` (lines 90-99). -/
def scoreToCategory (score : ℚ) : String :=
  if score ≥ 8/10 then "critical"
  else if score ≥ 6/10 then "high"
  else if score ≥ 4/10 then "moderate"
  else if score ≥ 2/10 then "low"
  else "minimal"

/-- `risk_scoring._clamp` (lines 102-103) with the default bounds 0, 1. -/
def clamp01 (x : ℚ) : ℚ := max 0 (min 1 x)

/-- `risk_scoring.compute_missing_data_penalty` (lines 108-117): unknown
flags contribute 0.0; the sum is capped at 0.90. -/
def compute_missing_data_penalty (flags : List String) : ℚ :=
  min (flags.foldl (fun total flag => total + (PENALTY_MAP.lookup flag).getD 0) 0) (9/10)

/-- The recognized `patient_context` fields (risk_scoring lines 133-138).
A Python `None` context, or a falsy empty dict, is `none` at the call site;
both behave exactly like a context with every field at its default. -/
structure PatientContext where
  co_medications : List String
  strong_relevant_inhibitors : List String
  renal_impairment : Bool
  hepatic_impairment : Bool
  age : Option Int
deriving Repr

/-- `risk_scoring.compute_context_multiplier` (lines 122-166).  `if age and
age >= 75` is false for a missing age and for `age = 0`. -/
def compute_context_multiplier (patient_context : Option PatientContext) :
    ℚ × List String :=
  match patient_context with
  | none => (1, [])
  | some ctx =>
    let m₁ : ℚ × List String :=
      if ctx.co_medications.inter ctx.strong_relevant_inhibitors ≠ [] then
        (1 * (125/100), ["strong_interacting_co_med"])
      else (1, [])
    let m₂ : ℚ × List String :=
      if ctx.renal_impairment then (m₁.1 * (11/10), m₁.2 ++ ["renal_impairment"])
      else m₁
    let m₃ : ℚ × List String :=
      if ctx.hepatic_impairment then (m₂.1 * (11/10), m₂.2 ++ ["hepatic_impairment"])
      else m₂
    match ctx.age with
    | some a => if a ≠ 0 ∧ a ≥ 75 then (m₃.1 * (105/100), m₃.2 ++ ["advanced_age"]) else m₃
    | none => m₃

/-- Round half to even at the integers (what Python's `round` does on an
exactly representable value). -/
def roundHalfEven (q : ℚ) : ℤ :=
  let f := ⌊q⌋
  let r := q - f
  if r < 1/2 then f
  else if 1/2 < r then f + 1
  else if Even f then f else f + 1

/-- `round(x, 4)`: round half to even at four decimal places.  (On binary
floats Python rounds the nearest double; every boundary the claims touch is
decided the same way by the exact rule.) -/
def pyRound4 (q : ℚ) : ℚ :=
  (roundHalfEven (q * 10000) : ℚ) / 10000

/-- The components dict of `compute_risk_score` (lines 220-228). -/
structure RiskComponents where
  severity_weight : ℚ
  evidence_confidence : ℚ
  phenotype_factor : ℚ
  context_multiplier : ℚ
  missing_data_penalty : ℚ
  raw : ℚ
  adjusted : ℚ
deriving Repr

/-- The result dict of `compute_risk_score` (lines 230-242). -/
structure RiskScoreResult where
  risk_score : ℚ
  category : String
  components : RiskComponents
  flags : List String
  context_notes : List String
  debug_text : Option String
deriving Repr

/-- The clamped score of `compute_risk_score` (lines 204-217): the value the
category is bucketed from, before any rounding. -/
def adjustedScore (severity evidence_level phenotype : String) (flags : List String)
    (patient_context : Option PatientContext) : ℚ :=
  let sev_w := (SEVERITY_WEIGHT.lookup (pyLower severity)).getD (4/10)
  let ev_conf := (EVIDENCE_CONFIDENCE.lookup (pyUpper evidence_level)).getD (6/10)
  let phen_f := ((PHENOTYPE_FACTOR.lookup phenotype).getD ((PHENOTYPE_FACTOR.lookup "Unknown").getD 0))
  let context_mult := (compute_context_multiplier patient_context).1
  let missing_penalty := compute_missing_data_penalty flags
  clamp01 (sev_w * ev_conf * phen_f * context_mult * (1 - missing_penalty))

/-- `risk_scoring.compute_risk_score` (lines 171-242).  The category is
computed from the unrounded clamped value (line 218); the returned
`risk_score` and the `raw`/`adjusted` components are rounded to 4 decimal
places.  The `debug=True` branch only attaches a float-formatted
`debug_text` string no claim reads; it is modelled as `none`. -/
def compute_risk_score (severity evidence_level phenotype : String)
    (flags : List String) (patient_context : Option PatientContext) :
    RiskScoreResult :=
  let sev_w := (SEVERITY_WEIGHT.lookup (pyLower severity)).getD (4/10)
  let ev_conf := (EVIDENCE_CONFIDENCE.lookup (pyUpper evidence_level)).getD (6/10)
  let phen_f := ((PHENOTYPE_FACTOR.lookup phenotype).getD ((PHENOTYPE_FACTOR.lookup "Unknown").getD 0))
  let cm := compute_context_multiplier patient_context
  let missing_penalty := compute_missing_data_penalty flags
  let raw := sev_w * ev_conf * phen_f * cm.1
  let adjusted := clamp01 (raw * (1 - missing_penalty))
  let category := scoreToCategory adjusted
  { risk_score := pyRound4 adjusted
    category := category
    components :=
      { severity_weight := sev_w, evidence_confidence := ev_conf,
        phenotype_factor := phen_f, context_multiplier := pyRound4 cm.1,
        missing_data_penalty := missing_penalty,
        raw := pyRound4 raw, adjusted := pyRound4 adjusted }
    flags := flags
    context_notes := cm.2
    debug_text := none }



/-! ## `drug_risk_map.py` -/

/-- One entry of the CPIC drug-risk map. -/
structure RiskEntry where
  risk_label : String
  recommendation : String
  evidence_level : String
  cpic_version : String
deriving DecidableEq, Repr

/-- `drug_risk_map.CPIC_DRUG_RISK_MAP` (lines 42-377), transcribed entry by
entry: `gene -> drug -> phenotype -> entry`. -/
def CPIC_DRUG_RISK_MAP : List (String × List (String × List (String × RiskEntry))) :=
  [    ("CYP2D6",
    [     ("CODEINE",
     [      ("NM",
       ⟨"Safe",
        "Label-recommended, age- or weight-specific starting dose is warranted. Normal CYP2D6 activity; standard morphine conversion.",
        "A", "CPIC 2020 (DOI:10.1002/cpt.1680)"⟩),
      ("IM",
       ⟨"Adjust Dose",
        "Label-recommended starting dose is recommended. Monitor closely for suboptimal analgesic response. If response is inadequate, consider an alternative non-opioid or CYP2D6-independent opioid (e.g., morphine, hydromorphone).",
        "A", "CPIC 2020 (DOI:10.1002/cpt.1680)"⟩),
      ("PM",
       ⟨"Avoid",
        "Avoid codeine use. Negligible CYP2D6 activity results in insufficient conversion to active morphine, leading to lack of analgesic effect. Use an alternative non-opioid or a CYP2D6-independent opioid (e.g., morphine, hydromorphone, oxycodone).",
        "A", "CPIC 2020 (DOI:10.1002/cpt.1680)"⟩),
      ("UM",
       ⟨"Contraindicated",
        "Avoid codeine use. Ultrarapid CYP2D6 activity results in excessive morphine formation, causing life-threatening respiratory depression and CNS toxicity. Use an alternative non-opioid or a CYP2D6-independent opioid (e.g., morphine, hydromorphone).",
        "A", "CPIC 2020 (DOI:10.1002/cpt.1680)"⟩)])]),
    ("CYP2C19",
    [     ("CLOPIDOGREL",
     [      ("NM",
       ⟨"Safe",
        "Initiate clopidogrel at standard label-recommended dose. Normal CYP2C19 activity provides adequate conversion to active metabolite and expected platelet inhibition.",
        "A", "CPIC 2022 (DOI:10.1002/cpt.2526)"⟩),
      ("IM",
       ⟨"Avoid",
        "CYP2C19 intermediate metabolizers have reduced platelet inhibition and increased risk of major adverse cardiovascular events (MACE). For ACS patients undergoing PCI, use an alternative P2Y12 inhibitor (prasugrel or ticagrelor) if no contraindications exist.",
        "A", "CPIC 2022 (DOI:10.1002/cpt.2526)"⟩),
      ("PM",
       ⟨"Avoid",
        "CYP2C19 poor metabolizers have significantly reduced platelet inhibition and substantially increased risk of MACE. Use an alternative P2Y12 inhibitor (prasugrel or ticagrelor) if no contraindications exist. Clopidogrel should not be used.",
        "A", "CPIC 2022 (DOI:10.1002/cpt.2526)"⟩),
      ("RM",
       ⟨"Safe",
        "Initiate clopidogrel at standard label-recommended dose. Rapid CYP2C19 metabolizers generally achieve adequate platelet inhibition. No dose adjustment required.",
        "B", "CPIC 2022 (DOI:10.1002/cpt.2526)"⟩),
      ("UM",
       ⟨"Safe",
        "Initiate clopidogrel at standard label-recommended dose. Ultrarapid CYP2C19 metabolizers achieve at least normal levels of active metabolite. No dose adjustment required based on CPIC guidance.",
        "B", "CPIC 2022 (DOI:10.1002/cpt.2526)"⟩)])]),
    ("CYP2C9",
    [     ("WARFARIN",
     [      ("NM",
       ⟨"Safe",
        "Initiate warfarin using a validated pharmacogenetic dosing algorithm incorporating CYP2C9, VKORC1, and clinical factors. Standard starting dose is appropriate for CYP2C9 *1/*1 (normal metabolizers). Monitor INR closely during initiation.",
        "A", "CPIC 2017 (DOI:10.1002/cpt.668)"⟩),
      ("IM",
       ⟨"Adjust Dose",
        "CYP2C9 intermediate metabolizers have reduced S-warfarin clearance. Use a validated pharmacogenetic dosing algorithm. Anticipate lower dose requirements (approximately 15–30% reduction vs. average), especially for *2/*2 or *1/*3 diplotypes. Monitor INR closely. Allow longer time to achieve stable INR.",
        "A", "CPIC 2017 (DOI:10.1002/cpt.668)"⟩),
      ("PM",
       ⟨"Adjust Dose",
        "CYP2C9 poor metabolizers (e.g., *2/*3, *3/*3) require significantly lower warfarin doses and face substantially increased bleeding risk. Use a validated pharmacogenetic dosing algorithm. If algorithm is unavailable and a VKORC1-sensitive genotype is also present, consider an alternative anticoagulant (e.g., DOAC). Intensive INR monitoring is mandatory during initiation.",
        "B", "CPIC 2017 (DOI:10.1002/cpt.668)"⟩)])]),
    ("SLCO1B1",
    [     ("SIMVASTATIN",
     [      ("NM",
       ⟨"Safe",
        "Normal SLCO1B1 function. Prescribe desired statin intensity per current standard of care and ACC/AHA guidelines. No SLCO1B1-driven dose limitation for simvastatin.",
        "A", "CPIC 2022 (DOI:10.1002/cpt.2557)"⟩),
      ("IM",
       ⟨"Avoid",
        "Decreased SLCO1B1 function. Prescribe an alternative statin with lower SAMS risk (e.g., rosuvastatin, pravastatin, or fluvastatin at clinically appropriate doses). If simvastatin is necessary, limit the dose to ≤20 mg/day and increase clinical monitoring for myopathy symptoms (muscle pain, weakness, CK elevation).",
        "A", "CPIC 2022 (DOI:10.1002/cpt.2557)"⟩),
      ("PM",
       ⟨"Contraindicated",
        "Poor SLCO1B1 function. Prescribe an alternative statin with lower SAMS risk (e.g., rosuvastatin, pravastatin, or fluvastatin). Simvastatin is associated with a substantially increased risk of myopathy and rhabdomyolysis at standard doses. Do not use simvastatin unless no alternatives exist; if unavoidable, use the lowest possible dose with intensive monitoring.",
        "A", "CPIC 2022 (DOI:10.1002/cpt.2557)"⟩)])]),
    ("TPMT",
    [     ("AZATHIOPRINE",
     [      ("NM",
       ⟨"Safe",
        "Normal TPMT activity. Start azathioprine at the normal starting dose (2–3 mg/kg/day for IBD/rheumatology indications). Adjust doses per disease-specific guidelines. Allow ≥2 weeks to reach steady-state after each dose adjustment. Monitor CBC regularly.",
        "A", "CPIC 2019+2025 (DOI:10.1002/cpt.1172)"⟩),
      ("IM",
       ⟨"Adjust Dose",
        "Reduced TPMT activity. Start at 30–80% of the normal azathioprine dose (e.g., ~0.6–2.4 mg/kg/day). Adjust dose based on myelosuppression and disease-specific guidelines. Allow 2–4 weeks to reach steady-state after each dose adjustment. Monitor CBC frequently. If the initial dose is already low for the indication, dose reduction may not be necessary.",
        "A", "CPIC 2019+2025 (DOI:10.1002/cpt.1172)"⟩),
      ("PM",
       ⟨"Contraindicated",
        "Absent TPMT activity. For non-malignant conditions, use an alternative non-thiopurine immunosuppressant (e.g., mycophenolate mofetil). If thiopurine must be used for a malignant indication, use a drastically reduced dose (10-fold reduction, administered 3×/week instead of daily) with intensive myelosuppression monitoring. Allow 4–6 weeks per dose adjustment. Risk of fatal myelosuppression is extremely high.",
        "A", "CPIC 2019+2025 (DOI:10.1002/cpt.1172)"⟩)])]),
    ("DPYD",
    [     ("FLUOROURACIL",
     [      ("NM",
       ⟨"Safe",
        "Normal DPD activity (activity score = 2.0). Administer 5-fluorouracil at the full label-recommended starting dose per disease protocol. No DPYD-based dose modification required.",
        "A", "CPIC 2024 update (DOI:10.1002/cpt.2450)"⟩),
      ("IM",
       ⟨"Adjust Dose",
        "Decreased DPD activity (activity score 1.0 or 1.5). Start at 50% of the normal 5-fluorouracil dose. Titrate dose based on clinical tolerability and, ideally, therapeutic drug monitoring. If the first two cycles are tolerated, dose escalation (≤10% per cycle) may be considered. For homozygous c.[2846A>T];[2846A>T] (AS=1.0), a reduction exceeding 50% may be warranted.",
        "B", "CPIC 2024 update (DOI:10.1002/cpt.2450)"⟩),
      ("PM",
       ⟨"Contraindicated",
        "Severely reduced or absent DPD activity (activity score 0.0 or 0.5). Avoid 5-fluorouracil and all fluoropyrimidine-based regimens (including capecitabine). No safe dose has been established for complete DPD deficiency (AS=0). If AS=0.5 and no alternative exists, a strongly reduced dose (>75% reduction from standard) with early therapeutic drug monitoring may be considered only after careful risk-benefit assessment. FDA label updated 2024 to reflect DPD deficiency risk.",
        "A", "CPIC 2024 update (DOI:10.1002/cpt.2450)"⟩)])]) ]

/-- `drug_risk_map._SEVERITY_MAP` (lines 386-393). -/
def SEVERITY_MAP : List (String × String) :=
  [("Safe", "none"), ("Adjust Dose", "moderate"), ("Avoid", "high"),
   ("Reduced Efficacy", "low"), ("Contraindicated", "critical"), ("Unknown", "none")]

/-- `drug_risk_map._CONFIDENCE_MAP` (lines 395-399). -/
def CONFIDENCE_MAP : List (String × ℚ) :=
  [("A", 95/100), ("B", 75/100), ("N/A", 0)]

/-- The result dict of `get_drug_risk`. -/
structure DrugRisk where
  gene : String
  drug : String
  phenotype : String
  risk_label : String
  severity : String
  confidence_score : ℚ
  recommendation : String
  evidence_level : String
  cpic_version : String
deriving DecidableEq, Repr

/-- `drug_risk_map._unknown_result` (lines 472-484). -/
def unknownResult (gene drug phenotype reason : String) : DrugRisk :=
  { gene := gene, drug := drug, phenotype := phenotype,
    risk_label := "Unknown", severity := "none", confidence_score := 0,
    recommendation := reason, evidence_level := "N/A", cpic_version := "N/A" }

/-- `drug_risk_map.get_drug_risk` (lines 406-469): trim/uppercase the keys,
walk the three lookup levels, and return the Unknown sentinel naming the
missing level on the first miss. -/
def get_drug_risk (gene phenotype drug : String) : DrugRisk :=
  let gene_key := pyUpper (pyStripS gene)
  let phenotype_key := pyUpper (pyStripS phenotype)
  let drug_key := pyUpper (pyStripS drug)
  match CPIC_DRUG_RISK_MAP.lookup gene_key with
  | none =>
    unknownResult gene_key drug_key phenotype_key
      ("Gene \x27" ++ gene_key ++ "\x27 not in CPIC drug risk map.")
  | some gene_map =>
    match gene_map.lookup drug_key with
    | none =>
      unknownResult gene_key drug_key phenotype_key
        ("Drug \x27" ++ drug_key ++ "\x27 not covered for gene \x27" ++ gene_key ++
         "\x27 in CPIC drug risk map.")
    | some drug_map =>
      match drug_map.lookup phenotype_key with
      | none =>
        unknownResult gene_key drug_key phenotype_key
          ("Phenotype \x27" ++ phenotype_key ++ "\x27 not explicitly defined by CPIC for " ++
           gene_key ++ "/" ++ drug_key ++ ".")
      | some entry =>
        { gene := gene_key, drug := drug_key, phenotype := phenotype_key,
          risk_label := entry.risk_label,
          severity := (SEVERITY_MAP.lookup entry.risk_label).getD "none",
          confidence_score := (CONFIDENCE_MAP.lookup entry.evidence_level).getD 0,
          recommendation := entry.recommendation,
          evidence_level := entry.evidence_level,
          cpic_version := entry.cpic_version }

example : (get_drug_risk "CYP2D6" "UM" "codeine").risk_label = "Contraindicated" := by rfl
example : (get_drug_risk "CYP2D6" "UM" "codeine").severity = "critical" := by rfl
example : (get_drug_risk "BRCA1" "PM" "CODEINE").risk_label = "Unknown" := by rfl
example :
    (get_drug_risk "BRCA1" "PM" "CODEINE").recommendation =
      "Gene \x27BRCA1\x27 not in CPIC drug risk map." := by rfl

/-! ## `phenotype_calculator._parse_diplotype` and `_cyp2d6_phenotype` -/

/-- `phenotype_calculator._parse_diplotype` (lines 86-97): strip, split at the
first `/`, strip both halves; empty input, no separator or an empty half is
`None`. -/
def parseDiplotype (diplotype : String) : Option (String × String) :=
  if diplotype = "" then none
  else
    let text := pyStrip diplotype.toList
    if '/' ∈ text then
      let left := pyStrip (text.takeWhile (· ≠ '/'))
      let right := pyStrip ((text.dropWhile (· ≠ '/')).tail)
      if left = [] ∨ right = [] then none
      else some (String.mk left, String.mk right)
    else none

/-- The CYP2D6 activity table of `_cyp2d6_phenotype` (lines 383-393). -/
def cyp2d6Activity : List (String × ℚ) :=
  [("*1", 1), ("*2", 1), ("*3", 0), ("*4", 0), ("*5", 0), ("*6", 0),
   ("*10", 25/100), ("*17", 1/2), ("*41", 1/2)]

/-- `phenotype_calculator._cyp2d6_phenotype` (lines 378-405): unparsable
diplotypes and alleles absent from the activity table are `"Unknown"`;
otherwise the summed activity score is bucketed by the source's guard
chain. -/
def cyp2d6Phenotype (diplotype : String) : String :=
  match parseDiplotype diplotype with
  | none => "Unknown"
  | some (left, right) =>
    match cyp2d6Activity.lookup left, cyp2d6Activity.lookup right with
    | some lv, some rv =>
      let score := lv + rv
      if score = 0 then "PM"
      else if 0 < score ∧ score ≤ 1 then "IM"
      else if 1 < score ∧ score ≤ 9/4 then "NM"
      else if 9/4 < score then "UM"
      else "Unknown"
    | _, _ => "Unknown"

/-! ## Helper lemmas -/

/-- A successful association-list lookup returns one of the stored values. -/
theorem lookup_val_mem {α β : Type} [BEq α] {l : List (α × β)} {k : α} {v : β}
    (h : l.lookup k = some v) : v ∈ l.map Prod.snd := by
  induction l with
  | nil => simp [List.lookup] at h
  | cons p t ih =>
    obtain ⟨a, b⟩ := p
    rw [List.lookup] at h
    rcases hk : k == a with _ | _
    · rw [hk] at h
      exact List.mem_cons_of_mem _ (ih h)
    · rw [hk] at h
      simp only [Option.some.injEq] at h
      exact h ▸ List.mem_cons_self _ _

/-- Every CYP2D6 activity value is nonnegative. -/
theorem cyp2d6Activity_nonneg {k : String} {v : ℚ}
    (h : cyp2d6Activity.lookup k = some v) : 0 ≤ v := by
  have := lookup_val_mem h
  simp only [cyp2d6Activity, List.map, List.mem_cons, List.not_mem_nil, or_false] at this
  rcases this with h | h | h | h | h | h | h | h | h <;> rw [h] <;> norm_num

/-! ## Claim C7 -/

/-- C7: for every diplotype both of whose alleles are in the CYP2D6 activity
table (`*1`,`*2` = 1.0; `*3`,`*4`,`*5`,`*6` = 0.0; `*10` = 0.25; `*17`,`*41`
= 0.5), `_cyp2d6_phenotype` buckets the summed score as 0 → PM, (0,1] → IM,
(1,2.25] → NM, >2.25 → UM; any diplotype with an allele absent from the table
(or unparsable) is `"Unknown"`. -/
theorem C7_cyp2d6_phenotype_buckets :
    (∀ d : String,
      cyp2d6Phenotype d =
        match parseDiplotype d with
        | none => "Unknown"
        | some (l, r) =>
          match cyp2d6Activity.lookup l, cyp2d6Activity.lookup r with
          | some a, some b =>
            if a + b = 0 then "PM"
            else if a + b ≤ 1 then "IM"
            else if a + b ≤ 9/4 then "NM"
            else "UM"
          | some _, none => "Unknown"
          | none, _ => "Unknown") ∧
    cyp2d6Activity.lookup "*1" = some 1 ∧ cyp2d6Activity.lookup "*2" = some 1 ∧
    cyp2d6Activity.lookup "*3" = some 0 ∧ cyp2d6Activity.lookup "*4" = some 0 ∧
    cyp2d6Activity.lookup "*5" = some 0 ∧ cyp2d6Activity.lookup "*6" = some 0 ∧
    cyp2d6Activity.lookup "*10" = some (25/100) ∧
    cyp2d6Activity.lookup "*17" = some (1/2) ∧
    cyp2d6Activity.lookup "*41" = some (1/2) ∧
    cyp2d6Activity.map Prod.fst =
      ["*1", "*2", "*3", "*4", "*5", "*6", "*10", "*17", "*41"] := by
  refine ⟨fun d => ?_, ?_, ?_, ?_, ?_, ?_, ?_, ?_, ?_, ?_, by rfl⟩
  · cases hp : parseDiplotype d with
    | none => simp [cyp2d6Phenotype, hp]
    | some pr =>
      obtain ⟨l, r⟩ := pr
      simp only [cyp2d6Phenotype, hp]
      cases hl : cyp2d6Activity.lookup l with
      | none => rfl
      | some a =>
        cases hr : cyp2d6Activity.lookup r with
        | none => rfl
        | some b =>
          have ha := cyp2d6Activity_nonneg hl
          have hb := cyp2d6Activity_nonneg hr
          simp only
          by_cases h0 : a + b = 0
          · simp [h0]
          · have hpos : 0 < a + b := lt_of_le_of_ne (add_nonneg ha hb) (Ne.symm h0)
            by_cases h1 : a + b ≤ 1
            · simp [h0, h1, hpos]
            · by_cases h2 : a + b ≤ 9/4
              · simp [h0, h1, h2, not_le.mp h1]
              · simp [h0, h1, h2, not_le.mp h2]
  all_goals rfl

/-- `clamp01` never goes below 0. -/
theorem clamp01_nonneg (x : ℚ) : 0 ≤ clamp01 x := le_max_left 0 _

/-- `clamp01` never exceeds 1. -/
theorem clamp01_le_one (x : ℚ) : clamp01 x ≤ 1 :=
  max_le (by norm_num) (min_le_left 1 x)

/-- Round-half-even of a nonnegative rational is nonnegative. -/
theorem roundHalfEven_nonneg {q : ℚ} (h : 0 ≤ q) : 0 ≤ roundHalfEven q := by
  have hf : (0 : ℤ) ≤ ⌊q⌋ := Int.floor_nonneg.mpr h
  dsimp only [roundHalfEven]
  split_ifs <;> omega

/-- Round-half-even never rounds past an integer upper bound. -/
theorem roundHalfEven_le {q : ℚ} {n : ℤ} (h : q ≤ n) : roundHalfEven q ≤ n := by
  have hf : ⌊q⌋ ≤ n := by
    have := Int.floor_le_floor h
    rwa [Int.floor_intCast] at this
  have key : 1/2 ≤ q - (⌊q⌋ : ℚ) → ⌊q⌋ + 1 ≤ n := by
    intro hr
    rcases lt_or_eq_of_le hf with hlt | heq
    · omega
    · exfalso
      have hq : q ≤ (⌊q⌋ : ℚ) := by
        rw [heq]; exact_mod_cast h
      have : q - (⌊q⌋ : ℚ) ≤ 0 := by linarith
      linarith
  dsimp only [roundHalfEven]
  split_ifs with h1 h2 h3
  · exact hf
  · exact key (le_of_lt h2)
  · exact hf
  · exact key (by linarith)

/-- `pyRound4` of a nonnegative rational is nonnegative. -/
theorem pyRound4_nonneg {q : ℚ} (h : 0 ≤ q) : 0 ≤ pyRound4 q := by
  unfold pyRound4
  have := roundHalfEven_nonneg (q := q * 10000) (by positivity)
  positivity

/-- `pyRound4` of a rational at most 1 stays at most 1. -/
theorem pyRound4_le_one {q : ℚ} (h : q ≤ 1) : pyRound4 q ≤ 1 := by
  have hr : roundHalfEven (q * 10000) ≤ (10000 : ℤ) := by
    apply roundHalfEven_le
    push_cast
    linarith
  unfold pyRound4
  rw [div_le_one (by norm_num)]
  exact_mod_cast hr

/-! ## Claim C2 -/

/-- C2: `compute_risk_score` always returns a `risk_score` inside `[0, 1]`,
and the returned category buckets the clamped score exactly at the 0.80 /
0.60 / 0.40 / 0.20 thresholds; in particular a score of exactly 0.80 is
`"critical"` and a score of 0.7999 is `"high"`. -/
theorem C2_risk_score_bounds_and_category :
    ∀ (severity evidence_level phenotype : String) (flags : List String)
      (patient_context : Option PatientContext),
      (0 ≤ (compute_risk_score severity evidence_level phenotype flags patient_context).risk_score ∧
       (compute_risk_score severity evidence_level phenotype flags patient_context).risk_score ≤ 1) ∧
      (compute_risk_score severity evidence_level phenotype flags patient_context).category =
        (if 8/10 ≤ adjustedScore severity evidence_level phenotype flags patient_context then
          "critical"
         else if 6/10 ≤ adjustedScore severity evidence_level phenotype flags patient_context then
          "high"
         else if 4/10 ≤ adjustedScore severity evidence_level phenotype flags patient_context then
          "moderate"
         else if 2/10 ≤ adjustedScore severity evidence_level phenotype flags patient_context then
          "low"
         else "minimal") ∧
      scoreToCategory (8/10) = "critical" ∧
      scoreToCategory (7999/10000) = "high" := by
  intro severity evidence_level phenotype flags patient_context
  refine ⟨⟨?_, ?_⟩, ?_, ?_, ?_⟩
  · exact pyRound4_nonneg (clamp01_nonneg _)
  · exact pyRound4_le_one (clamp01_le_one _)
  · rfl
  · norm_num [scoreToCategory]
  · norm_num [scoreToCategory]

/-! ## Claim C10 -/

/-- C10: the category returned by `compute_risk_score` is computed from the
exact clamped score, while the returned `risk_score` field is that score
rounded to 4 decimal places - and the two bucketings can disagree near a
boundary (0.79995 rounds to 0.8000, which buckets as `"critical"` although
the unrounded score buckets as `"high"`). -/
theorem C10_category_from_unrounded_score :
    ∀ (severity evidence_level phenotype : String) (flags : List String)
      (patient_context : Option PatientContext),
      (compute_risk_score severity evidence_level phenotype flags patient_context).category =
        scoreToCategory (adjustedScore severity evidence_level phenotype flags patient_context) ∧
      (compute_risk_score severity evidence_level phenotype flags patient_context).risk_score =
        pyRound4 (adjustedScore severity evidence_level phenotype flags patient_context) ∧
      scoreToCategory (pyRound4 (79995/100000)) ≠ scoreToCategory (79995/100000) := by
  intro severity evidence_level phenotype flags patient_context
  refine ⟨rfl, rfl, ?_⟩
  have hfloor : ⌊(79995 : ℚ)/100000 * 10000⌋ = 7999 := by
    apply Int.floor_eq_iff.mpr
    constructor <;> norm_num
  have hround : roundHalfEven ((79995 : ℚ)/100000 * 10000) = 8000 := by
    dsimp only [roundHalfEven]
    rw [hfloor]
    have hr : (79995 : ℚ)/100000 * 10000 - ((7999 : ℤ) : ℚ) = 1/2 := by norm_num
    rw [hr]
    norm_num [Int.even_iff]
  rw [show pyRound4 (79995/100000) = (8000 : ℚ)/10000 by
    unfold pyRound4; rw [hround]; norm_num]
  norm_num [scoreToCategory]
  decide

/-! ## Claim C6 -/

/-- C6: whichever of the three lookup levels (gene, then drug, then
phenotype) first misses the CPIC risk map, `get_drug_risk` returns the
well-defined Unknown record - risk_label `"Unknown"`, severity `"none"`,
confidence 0.0 - whose recommendation message names the missing level; the
function is total on arbitrary string inputs. -/
theorem C6_drug_risk_unknown_path :
    ∀ (gene phenotype drug : String),
      (CPIC_DRUG_RISK_MAP.lookup (pyUpper (pyStripS gene)) = none →
        get_drug_risk gene phenotype drug =
          unknownResult (pyUpper (pyStripS gene)) (pyUpper (pyStripS drug))
            (pyUpper (pyStripS phenotype))
            ("Gene \x27" ++ pyUpper (pyStripS gene) ++ "\x27 not in CPIC drug risk map.")) ∧
      (∀ gm, CPIC_DRUG_RISK_MAP.lookup (pyUpper (pyStripS gene)) = some gm →
        gm.lookup (pyUpper (pyStripS drug)) = none →
        get_drug_risk gene phenotype drug =
          unknownResult (pyUpper (pyStripS gene)) (pyUpper (pyStripS drug))
            (pyUpper (pyStripS phenotype))
            ("Drug \x27" ++ pyUpper (pyStripS drug) ++ "\x27 not covered for gene \x27" ++
             pyUpper (pyStripS gene) ++ "\x27 in CPIC drug risk map.")) ∧
      (∀ gm dm, CPIC_DRUG_RISK_MAP.lookup (pyUpper (pyStripS gene)) = some gm →
        gm.lookup (pyUpper (pyStripS drug)) = some dm →
        dm.lookup (pyUpper (pyStripS phenotype)) = none →
        get_drug_risk gene phenotype drug =
          unknownResult (pyUpper (pyStripS gene)) (pyUpper (pyStripS drug))
            (pyUpper (pyStripS phenotype))
            ("Phenotype \x27" ++ pyUpper (pyStripS phenotype) ++
             "\x27 not explicitly defined by CPIC for " ++ pyUpper (pyStripS gene) ++ "/" ++
             pyUpper (pyStripS drug) ++ ".")) ∧
      ((unknownResult (pyUpper (pyStripS gene)) (pyUpper (pyStripS drug))
          (pyUpper (pyStripS phenotype)) "x").risk_label = "Unknown" ∧
       (unknownResult (pyUpper (pyStripS gene)) (pyUpper (pyStripS drug))
          (pyUpper (pyStripS phenotype)) "x").severity = "none" ∧
       (unknownResult (pyUpper (pyStripS gene)) (pyUpper (pyStripS drug))
          (pyUpper (pyStripS phenotype)) "x").confidence_score = 0) := by
  intro gene phenotype drug
  refine ⟨?_, ?_, ?_, rfl, rfl, rfl⟩
  · intro h
    simp only [get_drug_risk, h]
  · intro gm hg hd
    simp only [get_drug_risk, hg, hd]
  · intro gm dm hg hd hp
    simp only [get_drug_risk, hg, hd, hp]

/-- Witness for C6: the three miss levels hit at concrete inputs: an unmapped
gene, an unmapped drug for a mapped gene, and an unmapped phenotype for a
mapped gene/drug pair. -/
theorem C6_drug_risk_unknown_path_witness :
    get_drug_risk "BRCA1" "PM" "CODEINE" =
      unknownResult "BRCA1" "CODEINE" "PM" "Gene \x27BRCA1\x27 not in CPIC drug risk map." ∧
    get_drug_risk "CYP2D6" "PM" "ASPIRIN" =
      unknownResult "CYP2D6" "ASPIRIN" "PM"
        "Drug \x27ASPIRIN\x27 not covered for gene \x27CYP2D6\x27 in CPIC drug risk map." ∧
    get_drug_risk "CYP2D6" "RM" "codeine" =
      unknownResult "CYP2D6" "CODEINE" "RM"
        "Phenotype \x27RM\x27 not explicitly defined by CPIC for CYP2D6/CODEINE." := by
  refine ⟨?_, ?_, ?_⟩
  · exact (C6_drug_risk_unknown_path "BRCA1" "PM" "CODEINE").1 rfl
  · exact (C6_drug_risk_unknown_path "CYP2D6" "PM" "ASPIRIN").2.1 _ rfl rfl
  · exact (C6_drug_risk_unknown_path "CYP2D6" "RM" "codeine").2.2.1 _ _ rfl rfl rfl

/-! ## Claim C8 -/

/-- C8: `compute_diplotype` fails (raises `ValueError`) exactly when one of
the required columns Gene, Chrom, Position, RSID, Genotype is missing, and
the error message lists the missing columns in sorted order; with all
required columns present it returns a result table for arbitrary row
contents. -/
theorem C8_compute_diplotype_column_check :
    ∀ (cols : List String) (rows : List VRow),
      ((∀ c ∈ requiredColsSorted, c ∈ cols) ∧
        ∃ out, compute_diplotype ⟨cols, rows⟩ = .ok out) ∨
      ((∃ c ∈ requiredColsSorted, ¬ c ∈ cols) ∧
        compute_diplotype ⟨cols, rows⟩ =
          .error ("Input DataFrame is missing required columns: " ++
            String.intercalate ", " (requiredColsSorted.filter fun c => ¬ c ∈ cols))) := by
  intro cols rows
  by_cases h : (requiredColsSorted.filter fun c => ¬ c ∈ cols) = []
  · left
    constructor
    · intro c hc
      by_contra hcc
      have hmem : c ∈ requiredColsSorted.filter fun c => ¬ c ∈ cols :=
        List.mem_filter.mpr ⟨hc, by simpa using hcc⟩
      rw [h] at hmem
      exact absurd hmem (List.not_mem_nil c)
    · simp only [compute_diplotype, h, List.isEmpty_nil, Bool.true_eq_false, if_false]
      exact ⟨_, rfl⟩
  · right
    constructor
    · obtain ⟨c, hc⟩ := List.exists_mem_of_ne_nil _ h
      have := List.mem_filter.mp hc
      exact ⟨c, this.1, by simpa using this.2⟩
    · simp only [compute_diplotype]
      rcases hl : requiredColsSorted.filter fun c => ¬ c ∈ cols with _ | ⟨a, t⟩
      · exact absurd hl h
      · rfl

/-! ## Claim C1 -/

/-- C1: with SLCO1B1 `*5` (rs4149056) and `*1B` (rs2306283) each observed
heterozygous, `compute_diplotype` does NOT collapse the pair to the compound
allele `*15`: the `*15` substitution at phenotype_calculator lines 194-197
rewrites only the dead `mutated_stars` list, so the emitted diplotype stays
`"*5/*1B"` and the note is the generic trans note, not the `*15` cis note. -/
theorem C1_slco1b1_compound_not_collapsed :
    compute_diplotype
        ⟨["Gene", "Chrom", "Position", "RSID", "Genotype"],
         [⟨some "SLCO1B1", some "chr12", some 21178630, some "rs4149056", some "0/1", none⟩,
          ⟨some "SLCO1B1", some "chr12", some 21176804, some "rs2306283", some "0/1", none⟩]⟩ =
      .ok [(⟨some "SLCO1B1", some "chr12", some 21178630, some "rs4149056", some "0/1", none⟩,
            some "*5/*1B", some "Unphased: trans assumed"),
           (⟨some "SLCO1B1", some "chr12", some 21176804, some "rs2306283", some "0/1", none⟩,
            some "*5/*1B", some "Unphased: trans assumed")] ∧
    ¬ "*15".toList <:+: "*5/*1B".toList ∧
    "Unphased: trans assumed" ≠
      "Unphased: *15 (cis) assumed from rs4149056 + rs2306283 co-occurrence" := by
  refine ⟨rfl, by decide, by decide⟩

/-! ## Claim C5 -/

/-- C5: `generate_detected_variants` filters on the raw `Genotype` cell being
the literal string `"0/0"`, not on the normalized genotype: rows whose raw
genotype is `"0|0"` or `"./."` (both of which normalize to `"0/0"`) still
emit detected-variant records when their star allele resolves. -/
theorem C5_reference_rows_still_emitted :
    generate_detected_variants
        ⟨["Gene", "Chrom", "Position", "RSID", "Genotype", "Diplotype", "Phenotype"],
         [⟨some "CYP2C19", some "chr10", some 94781859, some "rs4244285", some "0|0", none⟩,
          ⟨some "CYP2C19", some "chr10", some 94780653, some "rs4986893", some "./.", none⟩]⟩ =
      .ok [{ gene := "CYP2C19", rsid := "rs4244285", chrom := "chr10", position := 94781859,
             genotype := "0|0", star_allele := "*2", allele_function := "no function" },
           { gene := "CYP2C19", rsid := "rs4986893", chrom := "chr10", position := 94780653,
             genotype := "./.", star_allele := "*3", allele_function := "no function" }] ∧
    normalize_genotype "0|0" = "0/0" ∧
    normalize_genotype "./." = "0/0" := by
  refine ⟨rfl, by decide, by decide⟩

/-! ## Claim C4 -/

/-- Each part of a genotype maps to allele 0 or 1. -/
theorem alleleTok_eq_zero_or_one (p : List Char) : alleleTok p = 0 ∨ alleleTok p = 1 := by
  dsimp only [alleleTok]
  split_ifs with h
  · exact Or.inl rfl
  · rcases pyParseInt (pyStrip p) with _ | v
    · exact Or.inl rfl
    · dsimp only
      split_ifs
      · exact Or.inl rfl
      · exact Or.inr rfl

/-- Whatever list of characters either normalizer operates on, the result is
one of the three canonical genotype strings. -/
theorem normalizeFrom_shape (t : List Char) :
    normalizeFrom t = "0/0" ∨ normalizeFrom t = "0/1" ∨ normalizeFrom t = "1/1" := by
  unfold normalizeFrom
  split_ifs with h
  · exact Or.inl rfl
  · rcases sepOf t with _ | sep
    · exact Or.inl rfl
    · dsimp only
      rcases splitOnChar sep t with _ | ⟨p₁, _ | ⟨p₂, _ | ⟨p₃, rest⟩⟩⟩
      · exact Or.inl rfl
      · exact Or.inl rfl
      · dsimp only
        rcases alleleTok_eq_zero_or_one p₁ with h₁ | h₁ <;>
          rcases alleleTok_eq_zero_or_one p₂ with h₂ | h₂ <;>
            rw [h₁, h₂] <;> simp [mkGt]
      · exact Or.inl rfl

/-- C4: genotype normalization is total - every string input yields one of
`"0/0"`, `"0/1"`, `"1/1"` (an `"x/y"` string with x ≤ y, x,y ∈ {0,1}) - and
idempotent. -/
theorem C4_normalize_genotype_total_idempotent :
    ∀ g : String,
      (normalize_genotype g = "0/0" ∨ normalize_genotype g = "0/1" ∨
        normalize_genotype g = "1/1") ∧
      normalize_genotype (normalize_genotype g) = normalize_genotype g := by
  intro g
  have hs : normalize_genotype g = "0/0" ∨ normalize_genotype g = "0/1" ∨
      normalize_genotype g = "1/1" := normalizeFrom_shape (pyStrip g.toList)
  refine ⟨hs, ?_⟩
  rcases hs with h | h | h <;> rw [h] <;> decide

/-! ## Claim C3: homozygous-star selection -/

/-- `l.lookup` on a cons cell with its own key. -/
theorem lookup_cons_self {α : Type} (k : String) (v : α) (t : List (String × α)) :
    ((k, v) :: t).lookup k = some v := by
  simp [List.lookup]

/-- `l.lookup` on a cons cell with a different key. -/
theorem lookup_cons_ne {α : Type} (k s : String) (v : α) (t : List (String × α))
    (h : s ≠ k) : ((k, v) :: t).lookup s = t.lookup s := by
  rw [List.lookup, show (s == k) = false from beq_eq_false_iff_ne.mpr h]

/-- A key that misses the association list is not among its keys. -/
theorem lookup_none_iff {α : Type} (l : List (String × α)) (s : String) :
    l.lookup s = none ↔ s ∉ l.map Prod.fst := by
  induction l with
  | nil => simp [List.lookup]
  | cons p t ih =>
    obtain ⟨k, v⟩ := p
    by_cases h : s = k
    · subst h
      simp [lookup_cons_self]
    · rw [lookup_cons_ne _ _ _ _ h]
      simp [ih, h]

/-- Looking up a key present in the keys of the in-place-updated dict. -/
theorem lookup_map_update (seen : List (String × String)) (s gt : String)
    (h : s ∈ seen.map Prod.fst) :
    (seen.map fun p => if p.1 = s then (s, gt) else p).lookup s = some gt := by
  induction seen with
  | nil => simp at h
  | cons p t ih =>
    obtain ⟨k, v⟩ := p
    by_cases hk : k = s
    · subst hk
      simp only [List.map_cons, if_pos rfl]
      exact lookup_cons_self k gt _
    · simp only [List.map_cons]
      rw [if_neg (by simpa using hk)]
      rw [lookup_cons_ne _ _ _ _ (fun hh => hk hh.symm)]
      apply ih
      simp only [List.map_cons, List.mem_cons] at h
      rcases h with h | h
      · exact absurd h.symm hk
      · exact h

/-- Looking up a previously missing key after appending it. -/
theorem lookup_append_single (seen : List (String × String)) (s gt : String)
    (h : seen.lookup s = none) : (seen ++ [(s, gt)]).lookup s = some gt := by
  induction seen with
  | nil => exact lookup_cons_self s gt []
  | cons p t ih =>
    obtain ⟨k, v⟩ := p
    by_cases hk : s = k
    · subst hk
      rw [lookup_cons_self] at h
      exact Option.noConfusion h
    · rw [List.cons_append, lookup_cons_ne _ _ _ _ hk]
      rw [lookup_cons_ne _ _ _ _ hk] at h
      exact ih h

/-- Looking up a different key is unaffected by the in-place update. -/
theorem lookup_map_update_ne (seen : List (String × String)) (s gt u : String)
    (h : u ≠ s) :
    (seen.map fun p => if p.1 = s then (s, gt) else p).lookup u = seen.lookup u := by
  induction seen with
  | nil => rfl
  | cons p t ih =>
    obtain ⟨k, v⟩ := p
    simp only [List.map_cons]
    by_cases hk : k = s
    · rw [if_pos (show (k, v).1 = s from hk)]
      rw [lookup_cons_ne _ _ _ _ h, lookup_cons_ne _ _ _ _ (hk ▸ h)]
      exact ih
    · rw [if_neg (show ¬ (k, v).1 = s from hk)]
      by_cases hu : u = k
      · subst hu
        rw [lookup_cons_self, lookup_cons_self]
      · rw [lookup_cons_ne _ _ _ _ hu, lookup_cons_ne _ _ _ _ hu]
        exact ih

/-- Looking up a different key is unaffected by appending a pair. -/
theorem lookup_append_single_ne (seen : List (String × String)) (s gt u : String)
    (h : u ≠ s) : (seen ++ [(s, gt)]).lookup u = seen.lookup u := by
  induction seen with
  | nil => rw [List.nil_append, lookup_cons_ne _ _ _ _ h]
  | cons p t ih =>
    obtain ⟨k, v⟩ := p
    by_cases hu : u = k
    · subst hu
      rw [List.cons_append, lookup_cons_self, lookup_cons_self]
    · rw [List.cons_append, lookup_cons_ne _ _ _ _ hu, lookup_cons_ne _ _ _ _ hu]
      exact ih

/-- The keys of the `seen_stars` dict after an insertion: unchanged when the
star is present, appended otherwise. -/
theorem seenInsert_keys (seen : List (String × String)) (s gt : String) :
    (seenInsert seen s gt).map Prod.fst =
      if s ∈ seen.map Prod.fst then seen.map Prod.fst else seen.map Prod.fst ++ [s] := by
  unfold seenInsert
  cases hl : seen.lookup s with
  | none =>
    rw [if_neg ((lookup_none_iff seen s).mp hl)]
    simp
  | some prev =>
    have hmem : s ∈ seen.map Prod.fst := by
      by_contra hc
      rw [(lookup_none_iff seen s).mpr hc] at hl
      exact Option.noConfusion hl
    rw [if_pos hmem]
    dsimp only
    split_ifs
    · rfl
    · rw [List.map_map]
      apply List.map_congr_left
      intro p _
      by_cases hp : p.1 = s <;> simp [hp]

/-- Looking up the inserted key: a recorded `"1/1"` is never downgraded,
anything else is overwritten. -/
theorem seenInsert_lookup_self (seen : List (String × String)) (s gt : String) :
    (seenInsert seen s gt).lookup s =
      some (if seen.lookup s = some "1/1" then "1/1" else gt) := by
  unfold seenInsert
  cases hl : seen.lookup s with
  | none =>
    rw [if_neg (by simp)]
    exact lookup_append_single seen s gt hl
  | some prev =>
    dsimp only
    by_cases hprev : prev = "1/1"
    · subst hprev
      rw [if_pos rfl, if_pos rfl]
      exact hl
    · rw [if_neg hprev, if_neg (by simpa using hprev)]
      exact lookup_map_update seen s gt (by
        by_contra hc
        rw [(lookup_none_iff seen s).mpr hc] at hl
        exact Option.noConfusion hl)

/-- Looking up a different key is unaffected by an insertion. -/
theorem seenInsert_lookup_ne (seen : List (String × String)) (s gt u : String)
    (h : u ≠ s) : (seenInsert seen s gt).lookup u = seen.lookup u := by
  unfold seenInsert
  cases hl : seen.lookup s with
  | none => exact lookup_append_single_ne seen s gt u h
  | some prev =>
    dsimp only
    split_ifs
    · rfl
    · exact lookup_map_update_ne seen s gt u h

/-- First-occurrence deduplication: the order in which distinct values first
appear, which is exactly the key order of a Python dict built by repeated
insertion. -/
def firstDedup (l : List String) : List String :=
  l.foldl (fun acc s => if s ∈ acc then acc else acc ++ [s]) []

/-- The `seen_stars` dict built from a list of `(star, genotype)`
contributions. -/
def seenFold (cs : List (String × String)) : List (String × String) :=
  cs.foldl (fun seen p => seenInsert seen p.1 p.2) []

/-- The star `compute_diplotype` must pick when some star is homozygous: the
first star, in first-observation order, that is observed homozygous (and is
not `*1`). -/
def firstHomChoice (cs : List (String × String)) : Option String :=
  ((firstDedup (cs.map Prod.fst)).filter fun s => (s, "1/1") ∈ cs ∧ s ≠ "*1").head?

/-- The scan of `compute_diplotype` accumulates exactly the per-row
`(star, genotype)` contributions into the `seen_stars` dict (the DPYD flag
bookkeeping never touches it). -/
theorem scanGeneRows_seen (hasStarCol : Bool) (starMap : List (String × String))
    (gene : String) (rows : List VRow) :
    (scanGeneRows hasStarCol starMap gene rows).seen =
      seenFold (rows.filterMap (resolveRow hasStarCol starMap)) := by
  suffices h : ∀ (rows : List VRow) (st : GeneScan),
      (rows.foldl (scanStep hasStarCol starMap gene) st).seen =
        (rows.filterMap (resolveRow hasStarCol starMap)).foldl
          (fun seen p => seenInsert seen p.1 p.2) st.seen by
    exact h rows ⟨[], false, false⟩
  intro rows
  induction rows with
  | nil => intro st; rfl
  | cons r rest ih =>
    intro st
    rw [List.foldl_cons, List.filterMap_cons]
    cases hr : resolveRow hasStarCol starMap r with
    | none =>
      rw [show scanStep hasStarCol starMap gene st r = st by
        simp only [scanStep, hr]]
      exact ih st
    | some p =>
      obtain ⟨star, gt⟩ := p
      have hstep : (scanStep hasStarCol starMap gene st r).seen =
          seenInsert st.seen star gt := by
        simp only [scanStep, hr]
        split_ifs <;> rfl
      rw [List.foldl_cons, ih (scanStep hasStarCol starMap gene st r), hstep]

/-- The keys of the built dict are the contributions' stars in
first-observation order. -/
theorem seenFold_keys (cs : List (String × String)) :
    (seenFold cs).map Prod.fst = firstDedup (cs.map Prod.fst) := by
  suffices h : ∀ (cs : List (String × String)) (init : List (String × String)),
      (cs.foldl (fun seen p => seenInsert seen p.1 p.2) init).map Prod.fst =
        (cs.map Prod.fst).foldl (fun acc s => if s ∈ acc then acc else acc ++ [s])
          (init.map Prod.fst) by
    exact h cs []
  intro cs
  induction cs with
  | nil => intro init; rfl
  | cons p rest ih =>
    intro init
    rw [List.foldl_cons, List.map_cons, List.foldl_cons, ih, seenInsert_keys]

/-- `firstDedup` yields a list with no duplicates. -/
theorem firstDedup_nodup (l : List String) : (firstDedup l).Nodup := by
  suffices h : ∀ (l : List String) (init : List String), init.Nodup →
      (l.foldl (fun acc s => if s ∈ acc then acc else acc ++ [s]) init).Nodup by
    exact h l [] List.nodup_nil
  intro l
  induction l with
  | nil => intro init h; exact h
  | cons s rest ih =>
    intro init h
    rw [List.foldl_cons]
    apply ih
    split_ifs with hs
    · exact h
    · simp [List.nodup_append, h, hs]

/-- A star's final record is `"1/1"` exactly when some contribution observed
it homozygous. -/
theorem seenFold_lookup_hom (cs : List (String × String)) (s : String) :
    (seenFold cs).lookup s = some "1/1" ↔ (s, "1/1") ∈ cs := by
  suffices h : ∀ (cs : List (String × String)) (init : List (String × String)),
      ((cs.foldl (fun seen p => seenInsert seen p.1 p.2) init).lookup s = some "1/1" ↔
        ((s, "1/1") ∈ cs ∨ init.lookup s = some "1/1")) by
    have := h cs []
    simpa [List.lookup] using this
  intro cs
  induction cs with
  | nil =>
    intro init
    simp
  | cons p rest ih =>
    intro init
    obtain ⟨a, b⟩ := p
    rw [List.foldl_cons]
    rw [ih (seenInsert init a b)]
    by_cases hs : s = a
    · subst hs
      rw [seenInsert_lookup_self]
      constructor
      · rintro (h | h)
        · exact Or.inl (List.mem_cons_of_mem _ h)
        · split_ifs at h with hprev
          · exact Or.inr hprev
          · simp only [Option.some.injEq] at h
            exact Or.inl (h ▸ List.mem_cons_self _ _)
      · rintro (h | h)
        · rcases List.mem_cons.mp h with h | h
          · have hb : "1/1" = b := congrArg Prod.snd h
            right
            split_ifs
            · rfl
            · rw [← hb]
          · exact Or.inl h
        · rw [if_pos h]
          exact Or.inr rfl
    · rw [seenInsert_lookup_ne _ _ _ _ hs]
      constructor
      · rintro (h | h)
        · exact Or.inl (List.mem_cons_of_mem _ h)
        · exact Or.inr h
      · rintro (h | h)
        · rcases List.mem_cons.mp h with h | h
          · exact absurd (congrArg Prod.fst h) (by simpa using hs)
          · exact Or.inl h
        · exact Or.inr h

/-- Over a dict with distinct keys, `hom_stars` is the key list filtered by
"recorded homozygous, not `*1`". -/
theorem homStarsOf_eq_filter_keys (seen : List (String × String))
    (hnd : (seen.map Prod.fst).Nodup) :
    homStarsOf seen =
      (seen.map Prod.fst).filter fun s => seen.lookup s = some "1/1" ∧ s ≠ "*1" := by
  induction seen with
  | nil => rfl
  | cons p t ih =>
    obtain ⟨k, v⟩ := p
    rw [List.map_cons] at hnd ⊢
    have hk : k ∉ t.map Prod.fst := (List.nodup_cons.mp hnd).1
    have ht : (t.map Prod.fst).Nodup := (List.nodup_cons.mp hnd).2
    rw [List.filter_cons]
    have htail : (t.map Prod.fst).filter
          (fun s => ((k, v) :: t).lookup s = some "1/1" ∧ s ≠ "*1") =
        (t.map Prod.fst).filter (fun s => t.lookup s = some "1/1" ∧ s ≠ "*1") := by
      apply List.filter_congr
      intro s hs
      have hsk : s ≠ k := fun hc => hk (hc ▸ hs)
      rw [lookup_cons_ne _ _ _ _ hsk]
    rw [htail, ← ih ht]
    rw [lookup_cons_self]
    simp only [homStarsOf, List.filter_cons]
    by_cases hv : v = "1/1" ∧ k ≠ "*1"
    · rw [if_pos (by simpa using hv), if_pos (by simpa [hv.1] using hv.2)]
      rw [List.map_cons]
    · rw [if_neg (by simpa using hv), if_neg (by simpa using hv)]

/-- `hom_stars` of the scanned dict, phrased on the raw contribution list:
the stars observed homozygous, in first-observation order. -/
theorem homStarsOf_seenFold (cs : List (String × String)) :
    homStarsOf (seenFold cs) =
      (firstDedup (cs.map Prod.fst)).filter fun s => (s, "1/1") ∈ cs ∧ s ≠ "*1" := by
  have hnd : ((seenFold cs).map Prod.fst).Nodup := by
    rw [seenFold_keys]
    exact firstDedup_nodup _
  rw [homStarsOf_eq_filter_keys (seenFold cs) hnd, seenFold_keys]
  apply List.filter_congr
  intro s _
  simp [seenFold_lookup_hom]

/-- The first-in-row-order homozygous star (when there is one) is paired
with itself by `compute_diplotype`'s per-gene resolution. -/
theorem computeGeneDiplotype_hom_first (hasStarCol : Bool)
    (starMap : List (String × String)) (gene : String) (rows : List VRow) (s : String)
    (hch : firstHomChoice (rows.filterMap (resolveRow hasStarCol starMap)) = some s) :
    (computeGeneDiplotype hasStarCol starMap gene rows).1 = s ++ "/" ++ s := by
  have hhom : homStarsOf (scanGeneRows hasStarCol starMap gene rows).seen =
      (firstDedup ((rows.filterMap (resolveRow hasStarCol starMap)).map Prod.fst)).filter
        fun t => (t, "1/1") ∈ rows.filterMap (resolveRow hasStarCol starMap) ∧ t ≠ "*1" := by
    rw [scanGeneRows_seen, homStarsOf_seenFold]
  obtain ⟨rest, hrest⟩ : ∃ rest,
      homStarsOf (scanGeneRows hasStarCol starMap gene rows).seen = s :: rest := by
    rw [hhom]
    unfold firstHomChoice at hch
    rcases hfd : (firstDedup ((rows.filterMap (resolveRow hasStarCol starMap)).map
        Prod.fst)).filter
        fun t => (t, "1/1") ∈ rows.filterMap (resolveRow hasStarCol starMap) ∧ t ≠ "*1"
      with _ | ⟨a, t⟩
    · rw [hfd] at hch
      exact Option.noConfusion hch
    · rw [hfd] at hch
      simp only [List.head?_cons, Option.some.injEq] at hch
      exact ⟨t, by rw [hch]⟩
  simp only [computeGeneDiplotype, hrest, resolveAlleles]

/-- The homozygous star a row contributes in `_compute_gene_diplotype`
(`None` when the row is skipped or not homozygous). -/
def dcResolveHom (starMap : List (String × String)) (r : VRow) : Option String :=
  match r.rsid, r.genotype with
  | some rsid, some genotype =>
    match starMap.lookup rsid with
    | none => none
    | some star =>
      if normalizeGenotypeDC genotype = "1/1" then some star else none
  | _, _ => none

/-- `getLast?` of a cons cell, head-fallback form. -/
theorem getLast?_cons_getD (a : String) (l : List String) :
    (a :: l).getLast? = some (l.getLast?.getD a) := by
  induction l generalizing a with
  | nil => rfl
  | cons b t ih =>
    rw [List.getLast?_cons_cons, ih b]
    cases t.getLast? <;> simp [ih]

/-- After the `_compute_gene_diplotype` fold, `allele1`/`allele2` hold the
LAST homozygous star of the rows (in row order), or the initial value when no
row was homozygous. -/
theorem dcFold_alleles (starMap : List (String × String)) (rows : List VRow)
    (st : DCScan) :
    ((rows.foldl (dcStep starMap) st).allele1 =
      ((rows.filterMap (dcResolveHom starMap)).getLast?.getD st.allele1)) ∧
    ((rows.foldl (dcStep starMap) st).allele2 =
      ((rows.filterMap (dcResolveHom starMap)).getLast?.getD st.allele2)) := by
  induction rows generalizing st with
  | nil => exact ⟨rfl, rfl⟩
  | cons r rest ih =>
    rw [List.foldl_cons, List.filterMap_cons]
    have hstep : (dcStep starMap st r).allele1 =
          (match dcResolveHom starMap r with
           | some star => star
           | none => st.allele1) ∧
        (dcStep starMap st r).allele2 =
          (match dcResolveHom starMap r with
           | some star => star
           | none => st.allele2) ∧
        True := by
      unfold dcStep dcResolveHom
      rcases r.rsid with _ | rsid <;> rcases r.genotype with _ | genotype
      · exact ⟨rfl, rfl, trivial⟩
      · exact ⟨rfl, rfl, trivial⟩
      · exact ⟨rfl, rfl, trivial⟩
      · dsimp only
        rcases starMap.lookup rsid with _ | star
        · exact ⟨rfl, rfl, trivial⟩
        · dsimp only
          split_ifs with h0 h1 h2 <;> simp_all
    cases hr : dcResolveHom starMap r with
    | none =>
      rw [hr] at hstep
      obtain ⟨h1, h2, -⟩ := hstep
      obtain ⟨ih1, ih2⟩ := ih (dcStep starMap st r)
      rw [ih1, ih2, h1, h2]
      exact ⟨rfl, rfl⟩
    | some star =>
      rw [hr] at hstep
      obtain ⟨h1, h2, -⟩ := hstep
      obtain ⟨ih1, ih2⟩ := ih (dcStep starMap st r)
      rw [ih1, ih2, h1, h2, getLast?_cons_getD]
      cases (rest.filterMap (dcResolveHom starMap)).getLast? <;> exact ⟨rfl, rfl⟩

/-- The LAST homozygous star of the rows (when one exists and is not `*1`) is
what `_compute_gene_diplotype` pairs with itself. -/
theorem computeGeneDiplotypeDC_hom_last (starMap : List (String × String))
    (rows : List VRow) (s : String)
    (hlast : (rows.filterMap (dcResolveHom starMap)).getLast? = some s)
    (hs : s ≠ "*1") :
    computeGeneDiplotypeDC starMap rows = s ++ "/" ++ s := by
  have hne : ¬ (starMap.isEmpty ∨ rows.isEmpty) := by
    rintro (h | h)
    · have : rows.filterMap (dcResolveHom starMap) = [] := by
        apply List.filterMap_eq_nil_iff.mpr
        intro r _
        unfold dcResolveHom
        rcases r.rsid with _ | rsid <;> rcases r.genotype with _ | genotype <;> try rfl
        dsimp only
        rw [show starMap = [] from List.isEmpty_iff.mp h]
        rfl
      rw [this] at hlast
      exact Option.noConfusion hlast
    · rw [List.isEmpty_iff.mp h] at hlast
      exact Option.noConfusion hlast
  obtain ⟨h1, h2⟩ := dcFold_alleles starMap rows ⟨"*1", "*1", []⟩
  rw [hlast] at h1 h2
  simp only [computeGeneDiplotypeDC, if_neg hne]
  rw [if_neg (by rw [h1]; exact fun hc => hs hc.1)]
  rw [h1, h2]
  rfl

/-- C3 (amended): homozygous-star pairing holds in both callers, but the tie
break differs - `phenotype_calculator.compute_diplotype` pairs the FIRST
homozygous star in first-observation order with itself, while
`diplotype_calculator._compute_gene_diplotype` pairs the LAST homozygous row's
star with itself. -/
theorem C3_homozygous_selection_amended :
    (∀ (hasStarCol : Bool) (starMap : List (String × String)) (gene : String)
        (rows : List VRow) (s : String),
      firstHomChoice (rows.filterMap (resolveRow hasStarCol starMap)) = some s →
      (computeGeneDiplotype hasStarCol starMap gene rows).1 = s ++ "/" ++ s) ∧
    (∀ (starMap : List (String × String)) (rows : List VRow) (s : String),
      (rows.filterMap (dcResolveHom starMap)).getLast? = some s → s ≠ "*1" →
      computeGeneDiplotypeDC starMap rows = s ++ "/" ++ s) :=
  ⟨computeGeneDiplotype_hom_first, computeGeneDiplotypeDC_hom_last⟩

/-- C3 counterexample: two distinct homozygous CYP2C19 stars, rs4244285
(`*2`) in the first row and rs4986893 (`*3`) in the second;
`_compute_gene_diplotype` returns `"*3/*3"` - the LAST star encountered, not
the first (`*2`) as the claim states. -/
theorem C3_counterexample_last_homozygous_wins :
    computeGeneDiplotypeDC ((STAR_DEFINITIONS_DC.lookup "CYP2C19").getD [])
        [⟨some "CYP2C19", some "chr10", some 94781859, some "rs4244285", some "1/1", none⟩,
         ⟨some "CYP2C19", some "chr10", some 94780653, some "rs4986893", some "1/1", none⟩] =
      "*3/*3" ∧
    ([⟨some "CYP2C19", some "chr10", some 94781859, some "rs4244285", some "1/1", none⟩,
      ⟨some "CYP2C19", some "chr10", some 94780653, some "rs4986893", some "1/1",
        (none : Option String)⟩].filterMap
        (dcResolveHom ((STAR_DEFINITIONS_DC.lookup "CYP2C19").getD []))).head? =
      some "*2" ∧
    ("*3/*3" : String) ≠ "*2/*2" := by
  refine ⟨rfl, rfl, by decide⟩

/-- Witness for the amended C3: the same two homozygous rows, fed to
`compute_diplotype`'s per-gene caller, where the first-observed star `*2`
wins; and the DC caller hypothesis discharged at the same rows. -/
theorem C3_homozygous_selection_amended_witness :
    (computeGeneDiplotype false ((STAR_DEFINITIONS.lookup "CYP2C19").getD []) "CYP2C19"
        [⟨some "CYP2C19", some "chr10", some 94781859, some "rs4244285", some "1/1", none⟩,
         ⟨some "CYP2C19", some "chr10", some 94780653, some "rs4986893", some "1/1", none⟩]).1 =
      "*2/*2" ∧
    computeGeneDiplotypeDC ((STAR_DEFINITIONS_DC.lookup "CYP2C19").getD [])
        [⟨some "CYP2C19", some "chr10", some 94781859, some "rs4244285", some "1/1", none⟩,
         ⟨some "CYP2C19", some "chr10", some 94780653, some "rs4986893", some "1/1", none⟩] =
      "*3/*3" := by
  constructor
  · exact C3_homozygous_selection_amended.1 false _ "CYP2C19" _ "*2" rfl
  · exact C3_homozygous_selection_amended.2 _ _ "*3" rfl (by decide)

/-! ## Claim C9: the two genotype normalizers agree -/

/-- A list splits as its right-strip plus the stripped whitespace tail. -/
theorem rdropWhile_append_rtakeWhile (p : Char → Bool) (l : List Char) :
    l.rdropWhile p ++ l.rtakeWhile p = l := by
  rw [List.rdropWhile, List.rtakeWhile, ← List.reverse_append,
    List.takeWhile_append_dropWhile, List.reverse_reverse]

/-- Any list is whitespace, then its strip, then whitespace. -/
theorem pyStrip_decomp (l : List Char) :
    ∃ w₁ w₂, l = w₁ ++ pyStrip l ++ w₂ ∧
      (∀ c ∈ w₁, pyIsSpace c = true) ∧ (∀ c ∈ w₂, pyIsSpace c = true) := by
  refine ⟨l.takeWhile pyIsSpace, (l.dropWhile pyIsSpace).rtakeWhile pyIsSpace, ?_, ?_, ?_⟩
  · rw [pyStrip, List.append_assoc, rdropWhile_append_rtakeWhile,
      List.takeWhile_append_dropWhile]
  · intro c hc
    exact List.mem_takeWhile_imp hc
  · intro c hc
    exact List.mem_rtakeWhile_imp hc

/-- A non-whitespace character survives stripping, and stripping adds
nothing. -/
theorem mem_pyStrip_iff {c : Char} (hc : pyIsSpace c = false) (l : List Char) :
    c ∈ pyStrip l ↔ c ∈ l := by
  obtain ⟨w₁, w₂, hl, hw₁, hw₂⟩ := pyStrip_decomp l
  constructor
  · intro h
    rw [hl]
    simp [h]
  · intro h
    rw [hl] at h
    simp only [List.mem_append] at h
    rcases h with (h | h) | h
    · rw [hw₁ c h] at hc
      exact Bool.noConfusion hc
    · exact h
    · rw [hw₂ c h] at hc
      exact Bool.noConfusion hc

/-- `splitOnChar` never returns the empty list of parts. -/
theorem splitOnChar_ne_nil (sep : Char) (l : List Char) : splitOnChar sep l ≠ [] := by
  cases l with
  | nil => simp [splitOnChar]
  | cons c cs =>
    unfold splitOnChar
    split_ifs
    · simp
    · rcases splitOnChar sep cs with _ | ⟨h, t⟩ <;> simp

/-- Splitting a list free of the separator yields that one part. -/
theorem splitOnChar_of_not_mem {sep : Char} {l : List Char} (h : sep ∉ l) :
    splitOnChar sep l = [l] := by
  induction l with
  | nil => rfl
  | cons c cs ih =>
    unfold splitOnChar
    rw [if_neg (show ¬ c = sep from fun hc => h (hc ▸ List.mem_cons_self c cs))]
    rw [ih (fun hc => h (List.mem_cons_of_mem c hc))]

/-- Apply `f` to the last part of a (nonempty) list of parts. -/
def modifyLastPart (f : List Char → List Char) : List (List Char) → List (List Char)
  | [] => []
  | [x] => [f x]
  | x :: y :: t => x :: modifyLastPart f (y :: t)

/-- Unfolding `splitOnChar` at a separator head. -/
theorem splitOnChar_cons_of_eq (sep : Char) (cs : List Char) :
    splitOnChar sep (sep :: cs) = [] :: splitOnChar sep cs := by
  rw [splitOnChar.eq_def]
  simp

/-- Unfolding `splitOnChar` at a non-separator head. -/
theorem splitOnChar_cons_of_ne {sep c : Char} (cs : List Char) (hc : ¬ c = sep) :
    splitOnChar sep (c :: cs) = (splitOnChar sep cs).modifyHead (c :: ·) := by
  rw [splitOnChar.eq_def]
  rcases hm : splitOnChar sep cs with _ | ⟨p, t⟩
  · exact absurd hm (splitOnChar_ne_nil sep cs)
  · simp [if_neg hc, hm]

/-- Splitting after prepending separator-free characters prepends them to the
first part. -/
theorem splitOnChar_append_left {sep : Char} {a : List Char} (m : List Char)
    (h : sep ∉ a) :
    splitOnChar sep (a ++ m) = (splitOnChar sep m).modifyHead (a ++ ·) := by
  induction a with
  | nil =>
    rcases hm : splitOnChar sep m with _ | ⟨p, t⟩
    · exact absurd hm (splitOnChar_ne_nil sep m)
    · simp [hm]
  | cons c cs ih =>
    have hc : ¬ c = sep := fun hcc => h (hcc ▸ List.mem_cons_self c cs)
    have hcs : sep ∉ cs := fun hcc => h (List.mem_cons_of_mem c hcc)
    rw [List.cons_append, splitOnChar_cons_of_ne _ hc, ih hcs]
    rcases hm : splitOnChar sep m with _ | ⟨p, t⟩
    · exact absurd hm (splitOnChar_ne_nil sep m)
    · rfl

/-- Splitting after appending separator-free characters appends them to the
last part. -/
theorem splitOnChar_append_right {sep : Char} {b : List Char} (m : List Char)
    (h : sep ∉ b) :
    splitOnChar sep (m ++ b) = modifyLastPart (· ++ b) (splitOnChar sep m) := by
  induction m with
  | nil =>
    rw [List.nil_append, splitOnChar_of_not_mem h]
    rfl
  | cons c cs ih =>
    rw [List.cons_append]
    by_cases hc : c = sep
    · subst hc
      rw [splitOnChar_cons_of_eq, splitOnChar_cons_of_eq, ih]
      rcases hm : splitOnChar c cs with _ | ⟨p, t⟩
      · exact absurd hm (splitOnChar_ne_nil c cs)
      · rfl
    · rw [splitOnChar_cons_of_ne _ hc, splitOnChar_cons_of_ne _ hc, ih]
      rcases hm : splitOnChar sep cs with _ | ⟨p, _ | ⟨q, t⟩⟩
      · exact absurd hm (splitOnChar_ne_nil sep cs)
      · simp [modifyLastPart, List.cons_append]
      · rfl

/-- Right-stripping ignores an all-whitespace suffix. -/
theorem rdropWhile_append_ws (p : List Char) {w : List Char}
    (hw : ∀ c ∈ w, pyIsSpace c = true) :
    (p ++ w).rdropWhile pyIsSpace = p.rdropWhile pyIsSpace := by
  induction w using List.reverseRecOn with
  | nil => rw [List.append_nil]
  | append_singleton w x ih =>
    rw [← List.append_assoc, List.rdropWhile_concat_pos]
    · exact ih fun c hc => hw c (List.mem_append_left _ hc)
    · exact hw x (List.mem_append_right _ (List.mem_singleton_self x))

/-- Stripping ignores an all-whitespace prefix. -/
theorem pyStrip_ws_append {w : List Char} (p : List Char)
    (hw : ∀ c ∈ w, pyIsSpace c = true) : pyStrip (w ++ p) = pyStrip p := by
  unfold pyStrip
  rw [List.dropWhile_append_of_pos hw]

/-- Stripping ignores an all-whitespace suffix. -/
theorem pyStrip_append_ws (p : List Char) {w : List Char}
    (hw : ∀ c ∈ w, pyIsSpace c = true) : pyStrip (p ++ w) = pyStrip p := by
  unfold pyStrip
  rw [List.dropWhile_append]
  split_ifs with hemp
  · rw [List.dropWhile_eq_nil_iff.mpr fun c hc => hw c hc]
    rw [List.isEmpty_iff] at hemp
    rw [hemp]
  · rw [rdropWhile_append_ws _ hw]

/-- The allele a part contributes is unchanged by whitespace around it. -/
theorem alleleTok_ws (w₁ p w₂ : List Char)
    (h₁ : ∀ c ∈ w₁, pyIsSpace c = true) (h₂ : ∀ c ∈ w₂, pyIsSpace c = true) :
    alleleTok (w₁ ++ p) = alleleTok p ∧ alleleTok (p ++ w₂) = alleleTok p := by
  constructor
  · unfold alleleTok
    rw [pyStrip_ws_append p h₁]
  · unfold alleleTok
    rw [pyStrip_append_ws p h₂]

/-- `modifyLastPart` of a nonempty parts list is a nonempty parts list. -/
theorem modifyLastPart_cons (f : List Char → List Char) (x : List Char)
    (t : List (List Char)) : ∃ q qs, modifyLastPart f (x :: t) = q :: qs := by
  cases t with
  | nil => exact ⟨f x, [], rfl⟩
  | cons y t => exact ⟨x, modifyLastPart f (y :: t), rfl⟩

/-- The separator-branch part of `normalizeFrom` (the early empty/`"./."`
returns of the sources are special cases of it). -/
def normalizeFromSep (text : List Char) : String :=
  match sepOf text with
  | none => "0/0"
  | some sep =>
    match splitOnChar sep text with
    | [p₁, p₂] => mkGt (min (alleleTok p₁) (alleleTok p₂)) (max (alleleTok p₁) (alleleTok p₂))
    | _ => "0/0"

/-- The early returns of `normalizeFrom` agree with the separator branch. -/
theorem normalizeFrom_eq_sep (t : List Char) : normalizeFrom t = normalizeFromSep t := by
  unfold normalizeFrom
  split_ifs with h
  · rcases h with h | h <;> subst h <;> decide
  · rfl

/-- Separator detection is unaffected by stripping. -/
theorem sepOf_pyStrip (l : List Char) : sepOf (pyStrip l) = sepOf l := by
  unfold sepOf
  rw [if_congr (mem_pyStrip_iff (by decide) l) rfl
    (if_congr (mem_pyStrip_iff (by decide) l) rfl rfl)]

/-- A detected separator is a non-whitespace member of the text. -/
theorem sepOf_spec {t : List Char} {sep : Char} (h : sepOf t = some sep) :
    pyIsSpace sep = false ∧ sep ∈ t := by
  unfold sepOf at h
  split_ifs at h with h₁ h₂
  · obtain rfl : '/' = sep := Option.some.inj h
    exact ⟨by decide, h₁⟩
  · obtain rfl : '|' = sep := Option.some.inj h
    exact ⟨by decide, h₂⟩

/-- The heart of C9: normalization gives the same answer whether or not the
whole text was stripped first. -/
theorem normalizeFrom_pyStrip (l : List Char) :
    normalizeFrom (pyStrip l) = normalizeFrom l := by
  rw [normalizeFrom_eq_sep, normalizeFrom_eq_sep]
  unfold normalizeFromSep
  rw [sepOf_pyStrip]
  cases hsep : sepOf l with
  | none => rfl
  | some sep =>
    dsimp only
    obtain ⟨hws, _⟩ := sepOf_spec hsep
    obtain ⟨w₁, w₂, hl, hw₁, hw₂⟩ := pyStrip_decomp l
    have hw₁s : sep ∉ w₁ := fun hc => by
      rw [hw₁ sep hc] at hws; exact Bool.noConfusion hws
    have hw₂s : sep ∉ w₂ := fun hc => by
      rw [hw₂ sep hc] at hws; exact Bool.noConfusion hws
    have hsplit : splitOnChar sep l =
        (modifyLastPart (· ++ w₂) (splitOnChar sep (pyStrip l))).modifyHead (w₁ ++ ·) := by
      conv_lhs => rw [hl]
      rw [List.append_assoc, splitOnChar_append_left _ hw₁s,
        splitOnChar_append_right _ hw₂s]
    rcases hs : splitOnChar sep (pyStrip l) with _ | ⟨p₁, _ | ⟨p₂, _ | ⟨p₃, rest⟩⟩⟩
    · exact absurd hs (splitOnChar_ne_nil _ _)
    · rw [hsplit, hs]
      rfl
    · rw [hsplit, hs]
      have e₁ : alleleTok (w₁ ++ p₁) = alleleTok p₁ :=
        (alleleTok_ws w₁ p₁ [] hw₁ (by simp)).1
      have e₂ : alleleTok (p₂ ++ w₂) = alleleTok p₂ :=
        (alleleTok_ws [] p₂ w₂ (by simp) hw₂).2
      dsimp only [modifyLastPart, List.modifyHead]
      rw [e₁, e₂]
    · rw [hsplit, hs]
      obtain ⟨q, qs, hq⟩ := modifyLastPart_cons (· ++ w₂) p₃ rest
      dsimp only [modifyLastPart]
      rw [hq]
      rfl

/-- C9: the two genotype normalizers are extensionally equal - for every
input string they return the same normalized genotype. -/
theorem C9_normalizers_extensionally_equal :
    ∀ g : String, normalize_genotype g = normalizeGenotypeDC g :=
  fun g => normalizeFrom_pyStrip g.toList
